import Mathlib

/-!
Shallow embedding of the revision engine in `apps/oi/models.py` (the "OI"
subsystem of the GCD Django application), together with proofs about its
commit-to-display pipeline, cached child counters, statistics handling,
keyword round-tripping, conditional field copying, reprint-link shape
transitions, and prerequisite resolution.

Display rows are modelled as records held in plain lists; cached counter
columns are modelled as total functions from row id to `Int` (only ids of
rows that are present are ever constrained).  Python strings are modelled
as `String` / `List Char`; Django `F('field') + n` expressions followed by
`save()` are modelled by applying the delta to the stored value at the
point of the save.
-/

/-! ## Generic list helpers -/

/-- Number of elements of `l` satisfying `p` (length of the filtered list). -/
def cnt {α : Type} (p : α → Bool) (l : List α) : Nat :=
  (l.filter p).length

/-- Pointwise bump of a counter column: add `d` to the value at key `k`. -/
def bump (f : Nat → Int) (k : Nat) (d : Int) : Nat → Int :=
  fun x => if x = k then f x + d else f x

/-- Bump the counter column at every key in `keys` (models a Python loop
`for g in keys: g.count += d` over a distinct collection of rows). -/
def bump_many (f : Nat → Int) (keys : List Nat) (d : Int) : Nat → Int :=
  keys.foldl (fun acc g => bump acc g d) f

/-! ## Python string helpers for the keywords field

`apps/oi/models.py` stores keywords on a revision as one `;`-separated
string (`get_keywords`, lines 47-49) and writes them back to the display
object's tag collection by splitting on `;` and stripping whitespace
(`save_keywords`, lines 52-59).  We model unicode strings as `List Char`
and tag collections as `List (List Char)` kept in name order (the source
reads tags with `.order_by('name')`). -/

/-- Python `'; '.join(names)`. -/
def join_chars : List (List Char) → List Char
  | [] => []
  | [n] => n
  | n :: ns => n ++ ';' :: ' ' :: join_chars ns

/-- Python `s.split(';')`: split on every `';'` occurrence. -/
def split_chars : List Char → List (List Char)
  | [] => [[]]
  | c :: cs =>
    if c = ';' then [] :: split_chars cs
    else
      match split_chars cs with
      | [] => [[c]]
      | h :: t => (c :: h) :: t

/-- Python `s.strip()`: drop whitespace from both ends. -/
def strip_chars (l : List Char) : List Char :=
  ((l.dropWhile Char.isWhitespace).reverse.dropWhile Char.isWhitespace).reverse

/-- A usable tag name: nonempty, free of `';'`, and not starting or ending
in whitespace.  Tag names stored by the application satisfy this. -/
def clean_name (n : List Char) : Prop :=
  n ≠ [] ∧ (∀ c ∈ n, c ≠ ';') ∧
    (∀ c, n.head? = some c → ¬ c.isWhitespace) ∧
    (∀ c, n.getLast? = some c → ¬ c.isWhitespace)

instance (n : List Char) : Decidable (clean_name n) := by
  unfold clean_name; infer_instance

/-! ## Global statistics store

`update_count` (`apps/oi/models.py` lines 29-32) is, in this snapshot,
a dummy: `def update_count(*args, **kwargs): pass`.  We model the global
per-(category, country, language) statistics store explicitly and embed
`update_count` as the identity on it, applied at every call site where the
source invokes it. -/

/-- Key of one bucket of the global statistics store. -/
structure StatKey where
  category : String
  country : Nat
  language : Nat
deriving DecidableEq

/-- The global statistics store: a signed count per bucket. -/
def Stats : Type := StatKey → Int

/-- `update_count(category, delta, country=..., language=...)` from
`apps/oi/models.py` lines 29-32: accepts any arguments, returns `None`
(modelled by returning the store), and performs no state change. -/
def update_count (_category : String) (_delta : Int)
    (_country : Nat) (_language : Nat) (stats : Stats) : Stats :=
  stats

/-! ## Publisher display object and PublisherRevision

Embeds the `Publisher` display row (the fields touched by
`PublisherRevisionManager._do_create_revision`, lines 353-367, and
`PublisherRevision.commit_to_display`, lines 403-426) and the revision. -/

/-- The `gcd.Publisher` display row.  `keywords` is the tag collection,
kept in name order (reads go through `.order_by('name')`). -/
structure Publisher where
  id : Nat
  name : List Char
  year_began : Option Int
  year_ended : Option Int
  year_began_uncertain : Bool
  year_ended_uncertain : Bool
  url : List Char
  notes : List Char
  keywords : List (List Char)
  country : Nat
  is_master : Bool
  parent : Option Nat
  imprint_count : Int
  series_count : Int
  issue_count : Int
  reserved : Bool
deriving DecidableEq

/-- The `PublisherRevision` row (fields populated by
`_do_create_revision`, lines 353-367; `keywords` holds the `'; '`-joined
string per `_base_field_kwargs` / `get_keywords`). -/
structure PublisherRevision where
  publisher : Option Nat
  name : List Char
  year_began : Option Int
  year_ended : Option Int
  year_began_uncertain : Bool
  year_ended_uncertain : Bool
  url : List Char
  notes : List Char
  keywords : List Char
  country : Nat
  is_master : Bool
  parent : Option Nat
  deleted : Bool
deriving DecidableEq

/-- `get_keywords(source)` (lines 47-49): `'; '.join` of the source's tag
names in name order (the stored tag list is kept in name order). -/
def get_keywords (keywords : List (List Char)) : List Char :=
  join_chars keywords

/-- `PublisherRevisionManager._do_create_revision` (lines 353-367) plus
`_base_field_kwargs` (lines 292-296): clone a revision from a publisher. -/
def publisher_do_create_revision (pub : Publisher) : PublisherRevision :=
  { publisher := some pub.id
    name := pub.name
    year_began := pub.year_began
    year_ended := pub.year_ended
    year_began_uncertain := pub.year_began_uncertain
    year_ended_uncertain := pub.year_ended_uncertain
    url := pub.url
    notes := pub.notes
    keywords := get_keywords pub.keywords
    country := pub.country
    is_master := pub.is_master
    parent := pub.parent
    deleted := false }

/-- `save_keywords(revision, source)` (lines 52-59): if the revision's
keyword string is nonempty, set the source's tags from the split/stripped
string and re-join the resulting tags back onto the revision; otherwise
clear the source's tags.  Returns (source tags, revision keyword string). -/
def save_keywords (rev_keywords : List Char) (_source_keywords : List (List Char)) :
    List (List Char) × List Char :=
  if rev_keywords ≠ [] then
    let tags := (split_chars rev_keywords).map strip_chars
    (tags, join_chars tags)
  else
    ([], rev_keywords)

/-- `PublisherRevision.commit_to_display` (lines 403-426), edit/add/delete
paths.  Input: the revision, the current display row (`none` for an add),
a fresh id for the add path, the statistics store and `clear_reservation`.
Output: the display row after the commit (`none` if deleted), the revision
row after the commit (its `publisher` back-reference and `keywords` may be
rewritten), and the statistics store. -/
def publisher_commit_to_display (rev : PublisherRevision) (pub? : Option Publisher)
    (fresh_id : Nat) (stats : Stats) (clear_reservation : Bool) :
    Option Publisher × PublisherRevision × Stats :=
  match pub? with
  | none =>
    -- add path (lines 405-409): new Publisher with zeroed counters
    let pub0 : Publisher :=
      { id := fresh_id, name := [], year_began := none, year_ended := none
        year_began_uncertain := false, year_ended_uncertain := false
        url := [], notes := [], keywords := []
        country := rev.country, is_master := rev.is_master, parent := rev.parent
        imprint_count := 0, series_count := 0, issue_count := 0, reserved := false }
    let stats1 := update_count "publishers" 1 rev.country 0 stats
    -- fall through to the shared field-assignment code (lines 415-426)
    let pub1 := { pub0 with
      country := rev.country, is_master := rev.is_master, parent := rev.parent
      name := rev.name, year_began := rev.year_began, year_ended := rev.year_ended
      year_began_uncertain := rev.year_began_uncertain
      year_ended_uncertain := rev.year_ended_uncertain
      url := rev.url, notes := rev.notes }
    let kw := save_keywords rev.keywords pub1.keywords
    let pub2 := { pub1 with keywords := kw.1
                            reserved := if clear_reservation then false else pub1.reserved }
    (some pub2, { rev with keywords := kw.2, publisher := some pub2.id }, stats1)
  | some pub =>
    if rev.deleted then
      -- delete path (lines 410-413)
      (none, rev, update_count "publishers" (-1) pub.country 0 stats)
    else
      -- edit path (lines 415-426): copy fields, `_assign_base_fields`,
      -- `save_keywords`, clear the reservation, save
      let pub1 := { pub with
        country := rev.country, is_master := rev.is_master, parent := rev.parent
        name := rev.name, year_began := rev.year_began, year_ended := rev.year_ended
        year_began_uncertain := rev.year_began_uncertain
        year_ended_uncertain := rev.year_ended_uncertain
        url := rev.url, notes := rev.notes }
      let kw := save_keywords rev.keywords pub1.keywords
      let pub2 := { pub1 with keywords := kw.1
                              reserved := if clear_reservation then false else pub1.reserved }
      (some pub2, { rev with keywords := kw.2 }, stats)

/-! ## Display database for series / issues / counters

The display rows and cached counters touched by
`SeriesRevision.commit_to_display` (lines 1143-1327) and
`IssueRevision.commit_to_display` (lines 1624-1895).  Rows live in lists;
cached counter columns are total functions from row id to `Int` (only ids
of present rows are ever constrained).  Django row deletion removes the
row from its list. -/

/-- A `gcd.Series` display row (the fields the embedded commits read). -/
structure SeriesRec where
  id : Nat
  publisher : Nat
  country : Nat
  language : Nat
  is_comics_publication : Bool
  is_singleton : Bool
deriving DecidableEq

/-- A `gcd.Issue` display row (the fields the embedded commits read). -/
structure IssueRec where
  id : Nat
  series : Nat
  variant_of : Option Nat
  brand : Option Nat
  indicia_publisher : Option Nat
  sort_code : Int
  number : String
deriving DecidableEq

/-- A `gcd.Brand` display row: its id and the ids of its `BrandGroup`s. -/
structure BrandRec where
  id : Nat
  group : List Nat
deriving DecidableEq

/-- The display database: rows plus cached counter columns plus the
global statistics store. -/
structure DB where
  publishers : List Nat
  series : List SeriesRec
  issues : List IssueRec
  brands : List BrandRec
  brand_groups : List Nat
  indicia_publishers : List Nat
  publisher_series_count : Nat → Int
  publisher_issue_count : Nat → Int
  series_issue_count : Nat → Int
  brand_issue_count : Nat → Int
  brand_group_issue_count : Nat → Int
  indicia_publisher_issue_count : Nat → Int
  stats : Stats

/-- Group ids of a revision's brand: `self.brand.group.all()` resolved
against the brand table (empty when the revision has no brand). -/
def brand_groups_of (db : DB) (brand : Option Nat) : List Nat :=
  match brand with
  | none => []
  | some b =>
    match db.brands.find? (fun br => br.id == b) with
    | some br => br.group
    | none => []

/-- `SeriesRevision.commit_to_display` for an added, non-singleton series
(lines 1143-1153 for the counter/stat bookkeeping, 1190-1323 for the field
copy and saves).  `sid` is the id of the new series row; `none` on a
failed validity check (fresh id, existing publisher). -/
def series_commit_add (db : DB) (sid pid country language : Nat)
    (is_comics_publication : Bool) : Option DB :=
  if (∀ s ∈ db.series, s.id ≠ sid) ∧ pid ∈ db.publishers then
    some { db with
      series := db.series ++
        [{ id := sid, publisher := pid, country := country, language := language
           is_comics_publication := is_comics_publication, is_singleton := false }]
      -- `Series(issue_count=0)` (line 1146)
      series_issue_count := fun x => if x = sid then 0 else db.series_issue_count x
      -- lines 1147-1153: publisher.series_count += 1 and the global
      -- 'series' bucket, only for comics publications
      publisher_series_count :=
        if is_comics_publication then bump db.publisher_series_count pid 1
        else db.publisher_series_count
      stats :=
        if is_comics_publication then update_count "series" 1 country language db.stats
        else db.stats }
  else none

/-- `IssueRevision.commit_to_display` for an added issue (lines 1624-1677
and the final save/`_check_first_last` at 1882-1891).  The revision's
fields are passed directly; `iid` is the id of the new issue row.
The series row is saved later by `_check_first_last` (comment at lines
1660-1662), which applies the pending `F('issue_count') + 1`; the embedding
applies that delta here, once. -/
def issue_commit_add (db : DB) (iid rev_series : Nat) (rev_after : Option Nat)
    (rev_variant_of : Option Nat) (rev_brand : Option Nat)
    (rev_indicia_publisher : Option Nat) (number : String) (space_count : Nat) :
    Option DB :=
  match db.series.find? (fun s => s.id == rev_series) with
  | none => none
  | some sr =>
    -- lines 1628-1632: after_code from `self.after`
    match ((match rev_after with
            | none => some (-1 : Int)
            | some a => (db.issues.find? (fun i => i.id == a)).map
                (fun i => i.sort_code)) : Option Int) with
    | none => none
    | some after_code =>
      if (∀ i ∈ db.issues, i.id ≠ iid) ∧
          (∀ b, rev_brand = some b →
            ((db.brands.find? (fun br => br.id == b)).isSome ∧
              (brand_groups_of db rev_brand).Nodup)) then
        some { db with
          -- lines 1636-1650: shift later issues in the same series to
          -- make space when space_count > 0, then append the new issue
          -- row `Issue(sort_code=after_code + 1)` (line 1652)
          issues :=
            (if 0 < space_count then
              db.issues.map (fun i =>
                if i.series == rev_series && decide (after_code < i.sort_code) then
                  { i with sort_code := i.sort_code + space_count }
                else i)
            else db.issues) ++
            [{ id := iid, series := rev_series, variant_of := rev_variant_of
               brand := rev_brand, indicia_publisher := rev_indicia_publisher
               sort_code := after_code + 1, number := number }]
          -- line 1659: series.issue_count += 1 (non-variant only)
          series_issue_count :=
            if rev_variant_of.isSome then db.series_issue_count
            else bump db.series_issue_count rev_series 1
          -- lines 1663-1665: publisher.issue_count += 1
          publisher_issue_count :=
            if !rev_variant_of.isSome && sr.is_comics_publication then
              bump db.publisher_issue_count sr.publisher 1
            else db.publisher_issue_count
          -- lines 1666-1668: brand.issue_count += 1
          brand_issue_count :=
            if !rev_variant_of.isSome && sr.is_comics_publication then
              match rev_brand with
              | some b => bump db.brand_issue_count b 1
              | none => db.brand_issue_count
            else db.brand_issue_count
          -- lines 1669-1671: each group of the brand += 1
          brand_group_issue_count :=
            if !rev_variant_of.isSome && sr.is_comics_publication then
              bump_many db.brand_group_issue_count (brand_groups_of db rev_brand) 1
            else db.brand_group_issue_count
          -- lines 1672-1675: indicia_publisher.issue_count += 1
          indicia_publisher_issue_count :=
            if !rev_variant_of.isSome && sr.is_comics_publication then
              match rev_indicia_publisher with
              | some p => bump db.indicia_publisher_issue_count p 1
              | none => db.indicia_publisher_issue_count
            else db.indicia_publisher_issue_count
          -- lines 1655-1657 / 1676-1677: global buckets (update_count is
          -- a no-op in this snapshot)
          stats :=
            if rev_variant_of.isSome then
              if sr.is_comics_publication then
                update_count "variant issues" 1 sr.country sr.language db.stats
              else db.stats
            else
              if sr.is_comics_publication then
                update_count "issues" 1 sr.country sr.language db.stats
              else db.stats }
      else none

/-- `IssueRevision.commit_to_display` for a delete revision (lines
1679-1707).  A delete revision is a clone of the issue, so its `series`,
`variant_of`, `brand` and `indicia_publisher` fields equal the display
row's; the embedding reads them from the row. -/
def issue_commit_delete (db : DB) (iid : Nat) : Option DB :=
  match db.issues.find? (fun i => i.id == iid) with
  | none => none
  | some i =>
    match db.series.find? (fun s => s.id == i.series) with
    | none => none
    | some sr =>
      if (∀ b, i.brand = some b →
            ((db.brands.find? (fun br => br.id == b)).isSome ∧
              (brand_groups_of db i.brand).Nodup)) then
        some { db with
          -- line 1705: issue.delete()
          issues := db.issues.filter (fun j => !(j.id == iid))
          -- line 1686: series.issue_count -= 1 (applied by the
          -- `_check_first_last` save, line 1706)
          series_issue_count :=
            if i.variant_of.isSome then db.series_issue_count
            else bump db.series_issue_count i.series (-1)
          -- lines 1690-1692
          publisher_issue_count :=
            if !i.variant_of.isSome && sr.is_comics_publication then
              bump db.publisher_issue_count sr.publisher (-1)
            else db.publisher_issue_count
          -- lines 1693-1695
          brand_issue_count :=
            if !i.variant_of.isSome && sr.is_comics_publication then
              match i.brand with
              | some b => bump db.brand_issue_count b (-1)
              | none => db.brand_issue_count
            else db.brand_issue_count
          -- lines 1696-1698
          brand_group_issue_count :=
            if !i.variant_of.isSome && sr.is_comics_publication then
              bump_many db.brand_group_issue_count (brand_groups_of db i.brand) (-1)
            else db.brand_group_issue_count
          -- lines 1699-1702
          indicia_publisher_issue_count :=
            if !i.variant_of.isSome && sr.is_comics_publication then
              match i.indicia_publisher with
              | some p => bump db.indicia_publisher_issue_count p (-1)
              | none => db.indicia_publisher_issue_count
            else db.indicia_publisher_issue_count
          -- lines 1682-1684 / 1703-1704
          stats :=
            if i.variant_of.isSome then
              if sr.is_comics_publication then
                update_count "variant issues" (-1) sr.country sr.language db.stats
              else db.stats
            else
              if sr.is_comics_publication then
                update_count "issues" (-1) sr.country sr.language db.stats
              else db.stats }
      else none

/-- `IssueRevision.commit_to_display` for an edit of an existing issue
(the `else` branch, lines 1709-1801, and the field copy and saves at
1803-1895).  The revision's fields are passed directly; the display row
`iid` must exist.  The pending `F('issue_count') ± 1` series expressions
set at lines 1754-1755 are applied by the `set_series_first_last` /
`_check_first_last` saves at lines 1893-1895 (methods outside this
snapshot), each once; the embedding applies each delta at the commit,
once.  The gallery bookkeeping (lines 1792-1801) and the story/cover
statistics calls (lines 1777-1790) concern covers and stories, outside
the embedded row set; the statistics calls are `update_count` no-ops
(lines 29-32) like every other bucket here. -/
def issue_commit_edit (db : DB) (iid rev_series : Nat)
    (rev_variant_of rev_brand rev_indicia_publisher : Option Nat)
    (number : String) : Option DB :=
  match db.issues.find? (fun i => i.id == iid) with
  | none => none
  | some issue =>
    match db.series.find? (fun s => s.id == rev_series),
          db.series.find? (fun s => s.id == issue.series) with
    | some newSr, some oldSr =>
      -- lines 1710-1723: brand (and its groups) adjustment when the
      -- brand changed, gated on the NEW series being a comics publication
      let adjust_brand := !rev_variant_of.isSome && newSr.is_comics_publication &&
          !(rev_brand == issue.brand)
      let brand_ic :=
        if adjust_brand then
          let up := match rev_brand with
                    | some b => bump db.brand_issue_count b 1
                    | none => db.brand_issue_count
          match issue.brand with
          | some b0 => bump up b0 (-1)
          | none => up
        else db.brand_issue_count
      let group_ic :=
        if adjust_brand then
          bump_many (bump_many db.brand_group_issue_count
              (brand_groups_of db rev_brand) 1)
            (brand_groups_of db issue.brand) (-1)
        else db.brand_group_issue_count
      -- lines 1724-1732: indicia publisher adjustment when changed, under
      -- the same gate
      let ipub_ic :=
        if !rev_variant_of.isSome && newSr.is_comics_publication &&
            !(rev_indicia_publisher == issue.indicia_publisher) then
          let up := match rev_indicia_publisher with
                    | some q => bump db.indicia_publisher_issue_count q 1
                    | none => db.indicia_publisher_issue_count
          match issue.indicia_publisher with
          | some q0 => bump up q0 (-1)
          | none => up
        else db.indicia_publisher_issue_count
      let moved := !(rev_series == issue.series)
      -- lines 1733-1740: move to the end of the new series; `latest`
      -- over no rows raises DoesNotExist (the counter is truthy-tested)
      let sort_code? : Option Int :=
        if moved then
          if db.series_issue_count rev_series ≠ 0 then
            match db.issues.filter (fun i => i.series == rev_series) with
            | [] => none
            | j :: js =>
              some ((js.foldl (fun m i => max m i.sort_code) j.sort_code) + 1)
          else some 0
        else some issue.sort_code
      match sort_code? with
      | none => none
      | some sc =>
        -- lines 1753-1755: both series counters, non-variant only
        let series_ic :=
          if moved && !rev_variant_of.isSome then
            bump (bump db.series_issue_count rev_series 1) issue.series (-1)
          else db.series_issue_count
        -- lines 1756-1766: publisher counters ONLY when the publishers
        -- differ, each side gated on its own series' comics flag
        let pub_ic :=
          if moved && !rev_variant_of.isSome &&
              !(newSr.publisher == oldSr.publisher) then
            let up := if newSr.is_comics_publication then
                bump db.publisher_issue_count newSr.publisher 1
              else db.publisher_issue_count
            if oldSr.is_comics_publication then bump up oldSr.publisher (-1)
            else up
          else db.publisher_issue_count
        -- lines 1742-1752 / 1767-1776: global buckets on a
        -- language/country change (no-ops)
        let stats1 :=
          if moved then
            if rev_variant_of.isSome then
              if !(newSr.language == oldSr.language) ||
                  !(newSr.country == oldSr.country) then
                let s1 := if newSr.is_comics_publication then
                    update_count "variant issues" 1 newSr.country newSr.language db.stats
                  else db.stats
                if oldSr.is_comics_publication then
                  update_count "variant issues" (-1) oldSr.country oldSr.language s1
                else s1
              else db.stats
            else
              if !(newSr.language == oldSr.language) ||
                  !(newSr.country == oldSr.country) then
                let s1 := if newSr.is_comics_publication then
                    update_count "issues" 1 newSr.country newSr.language db.stats
                  else db.stats
                if oldSr.is_comics_publication then
                  update_count "issues" (-1) oldSr.country oldSr.language s1
                else s1
              else db.stats
          else db.stats
        -- lines 1803, 1825, 1848-1851, 1882-1884: copy the revision's
        -- fields onto the row and save it
        some { db with
          issues := db.issues.map (fun i =>
            if i.id == iid then
              { i with
                  series := rev_series,
                  variant_of := rev_variant_of,
                  brand := rev_brand,
                  indicia_publisher := rev_indicia_publisher,
                  sort_code := sc,
                  number := number }
            else i)
          series_issue_count := series_ic
          publisher_issue_count := pub_ic
          brand_issue_count := brand_ic
          brand_group_issue_count := group_ic
          indicia_publisher_issue_count := ipub_ic
          stats := stats1 }
    | _, _ => none

/-- One committed revision, as an operation on the display database. -/
inductive Op where
  | seriesAdd (sid pid country language : Nat) (is_comics_publication : Bool)
  | issueAdd (iid series : Nat) (after : Option Nat) (variant_of : Option Nat)
      (brand : Option Nat) (indicia_publisher : Option Nat)
      (number : String) (space_count : Nat)
  | issueDelete (iid : Nat)

/-- Dispatch one `commit_to_display` call. -/
def step (db : DB) : Op → Option DB
  | .seriesAdd sid pid country language comics =>
    series_commit_add db sid pid country language comics
  | .issueAdd iid series after variant_of brand ipub number space_count =>
    issue_commit_add db iid series after variant_of brand ipub number space_count
  | .issueDelete iid => issue_commit_delete db iid

/-- A sequence of `commit_to_display` calls. -/
def steps (db : DB) : List Op → Option DB
  | [] => some db
  | op :: ops => (step db op).bind (fun db1 => steps db1 ops)

/-! ## Cached-counter invariants -/

/-- Does issue `i` count toward series `sid`'s `issue_count`?  Non-variant
issues of the series (variant adds/deletes skip the series counter,
lines 1653-1659 / 1680-1686). -/
def issue_in_series (sid : Nat) (i : IssueRec) : Bool :=
  i.series == sid && i.variant_of.isNone

/-- Is `i`'s series a comics publication (resolved against `seriesList`)? -/
def series_comics (seriesList : List SeriesRec) (i : IssueRec) : Bool :=
  match seriesList.find? (fun s => s.id == i.series) with
  | some s => s.is_comics_publication
  | none => false

/-- Does issue `i` count toward publisher `pid`'s `issue_count`? -/
def issue_for_publisher (seriesList : List SeriesRec) (pid : Nat) (i : IssueRec) : Bool :=
  i.variant_of.isNone &&
    (match seriesList.find? (fun s => s.id == i.series) with
     | some s => s.publisher == pid && s.is_comics_publication
     | none => false)

/-- Does issue `i` count toward brand `bid`'s `issue_count`? -/
def issue_for_brand (seriesList : List SeriesRec) (bid : Nat) (i : IssueRec) : Bool :=
  i.variant_of.isNone && i.brand == some bid && series_comics seriesList i

/-- Does issue `i` count toward brand group `gid`'s `issue_count`? -/
def issue_for_brand_group (seriesList : List SeriesRec) (brands : List BrandRec)
    (gid : Nat) (i : IssueRec) : Bool :=
  i.variant_of.isNone && series_comics seriesList i &&
    (match i.brand with
     | some b =>
       match brands.find? (fun br => br.id == b) with
       | some br => br.group.contains gid
       | none => false
     | none => false)

/-- Does issue `i` count toward indicia publisher `qid`'s `issue_count`? -/
def issue_for_indicia_publisher (seriesList : List SeriesRec) (qid : Nat)
    (i : IssueRec) : Bool :=
  i.variant_of.isNone && i.indicia_publisher == some qid && series_comics seriesList i

/-- Does series `s` count toward publisher `pid`'s `series_count`?
Comics publications only (lines 1147-1151). -/
def series_for_publisher (pid : Nat) (s : SeriesRec) : Bool :=
  s.publisher == pid && s.is_comics_publication

/-- The cached-counter invariant maintained by the embedded commits: every
cached counter equals the number of its qualifying active children.
Qualifying: non-variant issues for `series_issue_count`; comics-publication
series for `publisher_series_count`; non-variant issues of
comics-publication series for the publisher / brand / brand-group /
indicia-publisher issue counters. -/
def counts_ok (db : DB) : Prop :=
  (∀ s ∈ db.series,
    db.series_issue_count s.id = (cnt (issue_in_series s.id) db.issues : Int)) ∧
  (∀ p ∈ db.publishers,
    db.publisher_series_count p = (cnt (series_for_publisher p) db.series : Int)) ∧
  (∀ p ∈ db.publishers,
    db.publisher_issue_count p = (cnt (issue_for_publisher db.series p) db.issues : Int)) ∧
  (∀ b ∈ db.brands,
    db.brand_issue_count b.id = (cnt (issue_for_brand db.series b.id) db.issues : Int)) ∧
  (∀ g ∈ db.brand_groups,
    db.brand_group_issue_count g =
      (cnt (issue_for_brand_group db.series db.brands g) db.issues : Int)) ∧
  (∀ q ∈ db.indicia_publishers,
    db.indicia_publisher_issue_count q =
      (cnt (issue_for_indicia_publisher db.series q) db.issues : Int))

/-- The literal reading of the spec's invariant: every cached counter
equals the number of ALL active children (variants and non-comics
publications included). -/
def counts_ok_literal (db : DB) : Prop :=
  (∀ s ∈ db.series,
    db.series_issue_count s.id = (cnt (fun i => i.series == s.id) db.issues : Int)) ∧
  (∀ p ∈ db.publishers,
    db.publisher_series_count p = (cnt (fun s => s.publisher == p) db.series : Int)) ∧
  (∀ p ∈ db.publishers,
    db.publisher_issue_count p =
      (cnt (fun i => match db.series.find? (fun s => s.id == i.series) with
                     | some s => s.publisher == p
                     | none => false) db.issues : Int)) ∧
  (∀ b ∈ db.brands,
    db.brand_issue_count b.id = (cnt (fun i => i.brand == some b.id) db.issues : Int)) ∧
  (∀ g ∈ db.brand_groups,
    db.brand_group_issue_count g =
      (cnt (fun i => match i.brand with
                     | some b =>
                       match db.brands.find? (fun br => br.id == b) with
                       | some br => br.group.contains g
                       | none => false
                     | none => false) db.issues : Int)) ∧
  (∀ q ∈ db.indicia_publishers,
    db.indicia_publisher_issue_count q =
      (cnt (fun i => i.indicia_publisher == some q) db.issues : Int))

/-- Structural well-formedness of the display database: distinct issue
ids, referential integrity from issues to series, and duplicate-free
brand-group memberships. -/
def db_wf (db : DB) : Prop :=
  db.issues.Pairwise (fun a b => a.id ≠ b.id) ∧
  (∀ i ∈ db.issues, ∃ s ∈ db.series, s.id = i.series) ∧
  (∀ br ∈ db.brands, br.group.Nodup)

/-! ## Singleton series lifecycle (SeriesRevision.commit_to_display)

`SeriesRevision.commit_to_display` (lines 1143-1327).  For an added
series the publisher's `series_count` is set to `F('series_count') + 1`
but, when the series is a singleton, NOT saved there (comment at line
1150: "if save also happens in IssueRevision gets twice +1"); the pending
expression is applied by the `self.series.publisher.save()` inside the
synthetic issue revision's own commit (lines 1663-1665).  We model the
in-memory publisher object as a handle carrying pending `F`-deltas;
`save_pub` applies the pending deltas to the stored row (and, like a
Django save of an object still carrying `F` expressions, would re-apply
them on a second save). -/

/-- In-memory publisher object with pending `F('...') + d` expressions. -/
structure PubHandle where
  id : Nat
  series_count_pending : Int
  issue_count_pending : Int

/-- `publisher.save()`: apply the pending `F` expressions to the store. -/
def save_pub (db : DB) (h : PubHandle) : DB :=
  { db with
    publisher_series_count := bump db.publisher_series_count h.id h.series_count_pending
    publisher_issue_count := bump db.publisher_issue_count h.id h.issue_count_pending }

/-- `SeriesRevision.commit_to_display` for an added series, including the
singleton side effect (lines 1143-1161 and 1321-1327): when
`is_singleton`, an `IssueRevision(number='[nn]', after=None)` is created
and committed (its commit is inlined here: lines 1624-1677 with no
variant, no brand, no indicia publisher, default `space_count=1`). -/
def series_commit_add_full (db : DB) (sid pid country language : Nat)
    (is_comics_publication is_singleton : Bool) (iid : Nat) : Option DB :=
  if (∀ s ∈ db.series, s.id ≠ sid) ∧ pid ∈ db.publishers ∧
      (∀ i ∈ db.issues, i.id ≠ iid) then
    -- lines 1145-1153
    let h0 : PubHandle := { id := pid, series_count_pending := 0, issue_count_pending := 0 }
    let h1 := if is_comics_publication then { h0 with series_count_pending := 1 } else h0
    let db1 := if is_comics_publication && !is_singleton then save_pub db h1 else db
    let db2 := { db1 with
      stats := if is_comics_publication then
                 update_count "series" 1 country language db1.stats
               else db1.stats }
    -- field copy and save (lines 1190-1320): insert the series row with
    -- issue_count = 0 (line 1146)
    let db3 := { db2 with
      series := db2.series ++
        [{ id := sid, publisher := pid, country := country, language := language
           is_comics_publication := is_comics_publication
           is_singleton := is_singleton }]
      series_issue_count := fun x => if x = sid then 0 else db2.series_issue_count x }
    if is_singleton then
      -- lines 1154-1161 and 1324-1327: the synthetic issue revision's
      -- commit_to_display, inlined (lines 1624-1677, 1882-1891)
      let issues1 := db3.issues.map (fun i =>
        if i.series == sid && decide ((-1 : Int) < i.sort_code) then
          { i with sort_code := i.sort_code + 1 }
        else i)
      let new_issue : IssueRec :=
        { id := iid, series := sid, variant_of := none, brand := none
          indicia_publisher := none, sort_code := 0, number := "[nn]" }
      -- line 1665: this save applies the still-pending
      -- F('series_count') + 1 together with F('issue_count') + 1
      let h2 := { h1 with issue_count_pending := 1 }
      let db4 := if is_comics_publication then save_pub db3 h2 else db3
      some { db4 with
        issues := issues1 ++ [new_issue]
        series_issue_count := bump db3.series_issue_count sid 1
        stats := if is_comics_publication then
                   update_count "issues" 1 country language db4.stats
                 else db4.stats }
    else
      some db3
  else none

/-- `SeriesRevision.commit_to_display` for an edit (the `else` branch,
lines 1178-1320): publisher-move counter adjustments (lines 1179-1188),
copy of the modelled fields including `is_singleton` (lines 1202, 1307-
1313), and the global-bucket calls for comics-flag or country/language
changes (lines 1232-1306; all identity in this snapshot).  The edit path
creates no issue revision: lines 1321-1327 run only when `self.series is
None`. -/
def series_commit_edit (db : DB) (sid : Nat) (rev_publisher rev_country rev_language : Nat)
    (rev_is_comics rev_is_singleton : Bool) : Option DB :=
  match db.series.find? (fun s => s.id == sid) with
  | none => none
  | some old =>
    -- lines 1179-1188: publisher move for a comics publication
    let moved := rev_publisher ≠ old.publisher ∧ old.is_comics_publication
    let psc :=
      if moved then
        bump (bump db.publisher_series_count rev_publisher 1) old.publisher (-1)
      else db.publisher_series_count
    let pic :=
      if moved then
        bump (bump db.publisher_issue_count rev_publisher (db.series_issue_count sid))
          old.publisher (-(db.series_issue_count sid))
      else db.publisher_issue_count
    -- lines 1232-1306: global-bucket adjustments for comics-flag or
    -- country/language changes (update_count is a no-op in this snapshot)
    let stats1 :=
      if old.is_comics_publication ≠ rev_is_comics then
        update_count "series" (if old.is_comics_publication then -1 else 1)
          old.country old.language db.stats
      else db.stats
    let stats2 :=
      if (old.language ≠ rev_language ∨ old.country ≠ rev_country) ∧ rev_is_comics then
        update_count "series" 1 rev_country rev_language
          (update_count "series" (-1) old.country old.language stats1)
      else stats1
    -- field copy and save (lines 1190-1320)
    some { db with
      series := db.series.map (fun s =>
        if s.id == sid then
          { s with publisher := rev_publisher, country := rev_country
                   language := rev_language
                   is_comics_publication := rev_is_comics
                   is_singleton := rev_is_singleton }
        else s)
      publisher_series_count := psc
      publisher_issue_count := pic
      stats := stats2 }

/-- Does series `sid` have a linked issue numbered `[nn]`? -/
def has_nn_issue (db : DB) (sid : Nat) : Bool :=
  db.issues.any (fun i => i.series == sid && i.number == "[nn]")

/-! ## Conditional field copy in IssueRevision.commit_to_display

Lines 1803-1880: single-value fields are copied from the revision onto
the display issue, except that fields governed by a series flag
(`has_issue_title`, `has_volume`, `has_indicia_frequency`, `has_isbn`,
`has_barcode`, `has_rating`) are only copied when the flag is `True`;
when it is `False` the display object's existing values are kept and the
revision's own copies are overwritten from the display object and saved.
`validated_isbn` and `on_sale_date_as_string` live outside this snapshot
(`apps.gcd`), so they are taken as parameters. -/

/-- The series flags that govern conditional issue fields. -/
structure SeriesFlags where
  has_issue_title : Bool
  has_volume : Bool
  has_indicia_frequency : Bool
  has_isbn : Bool
  has_barcode : Bool
  has_rating : Bool
deriving DecidableEq

/-- The single-value fields of a `gcd.Issue` display row copied by
lines 1803-1880. -/
structure IssueDisplay where
  number : String
  title : String
  no_title : Bool
  volume : String
  no_volume : Bool
  display_volume_with_number : Bool
  variant_of : Option Nat
  variant_name : String
  publication_date : String
  key_date : String
  on_sale_date : String
  on_sale_date_uncertain : Bool
  indicia_frequency : String
  no_indicia_frequency : Bool
  price : String
  page_count : Option ℚ
  page_count_uncertain : Bool
  editing : String
  no_editing : Bool
  notes : String
  series : Nat
  indicia_publisher : Option Nat
  indicia_pub_not_printed : Bool
  brand : Option Nat
  no_brand : Bool
  isbn : String
  no_isbn : Bool
  valid_isbn : String
  barcode : String
  no_barcode : Bool
  rating : String
  no_rating : Bool
  reserved : Bool
deriving DecidableEq

/-- The corresponding fields of an `IssueRevision` row. -/
structure IssueRevFields where
  number : String
  title : String
  no_title : Bool
  volume : String
  no_volume : Bool
  display_volume_with_number : Bool
  variant_of : Option Nat
  variant_name : String
  publication_date : String
  key_date : String
  year_on_sale : Option Int
  month_on_sale : Option Int
  day_on_sale : Option Int
  on_sale_date_uncertain : Bool
  indicia_frequency : String
  no_indicia_frequency : Bool
  price : String
  page_count : Option ℚ
  page_count_uncertain : Bool
  editing : String
  no_editing : Bool
  notes : String
  series : Nat
  indicia_publisher : Option Nat
  indicia_pub_not_printed : Bool
  brand : Option Nat
  no_brand : Bool
  isbn : String
  no_isbn : Bool
  barcode : String
  no_barcode : Bool
  rating : String
  no_rating : Bool
deriving DecidableEq

/-- Lines 1803-1880 of `IssueRevision.commit_to_display`: assign the
single-value fields, applying the conditional-field filter, and clear the
reservation.  Returns the updated display issue and the updated (saved)
revision. -/
def issue_assign_fields (validated_isbn : String → String)
    (on_sale_date_as_string : IssueRevFields → String)
    (flags : SeriesFlags) (clear_reservation : Bool)
    (issue : IssueDisplay) (rev : IssueRevFields) :
    IssueDisplay × IssueRevFields :=
  -- line 1803
  let i1 := { issue with number := rev.number }
  -- lines 1805-1813
  let s1 : IssueDisplay × IssueRevFields :=
    if flags.has_issue_title then
      ({ i1 with title := rev.title, no_title := rev.no_title }, rev)
    else
      (i1, { rev with title := issue.title, no_title := issue.no_title })
  -- lines 1815-1823
  let s2 : IssueDisplay × IssueRevFields :=
    if flags.has_volume then
      ({ s1.1 with volume := s1.2.volume, no_volume := s1.2.no_volume
                   display_volume_with_number := s1.2.display_volume_with_number },
       s1.2)
    else
      (s1.1, { s1.2 with volume := issue.volume, no_volume := issue.no_volume
                         display_volume_with_number := issue.display_volume_with_number })
  -- lines 1825-1831
  let i3 := { s2.1 with
    variant_of := s2.2.variant_of, variant_name := s2.2.variant_name
    publication_date := s2.2.publication_date, key_date := s2.2.key_date
    on_sale_date := on_sale_date_as_string s2.2
    on_sale_date_uncertain := s2.2.on_sale_date_uncertain }
  -- lines 1833-1839
  let s3 : IssueDisplay × IssueRevFields :=
    if flags.has_indicia_frequency then
      ({ i3 with indicia_frequency := s2.2.indicia_frequency
                 no_indicia_frequency := s2.2.no_indicia_frequency }, s2.2)
    else
      (i3, { s2.2 with indicia_frequency := issue.indicia_frequency
                       no_indicia_frequency := issue.no_indicia_frequency })
  -- lines 1841-1852
  let i4 := { s3.1 with
    price := s3.2.price, page_count := s3.2.page_count
    page_count_uncertain := s3.2.page_count_uncertain
    editing := s3.2.editing, no_editing := s3.2.no_editing, notes := s3.2.notes
    series := s3.2.series, indicia_publisher := s3.2.indicia_publisher
    indicia_pub_not_printed := s3.2.indicia_pub_not_printed
    brand := s3.2.brand, no_brand := s3.2.no_brand }
  -- lines 1854-1861
  let s4 : IssueDisplay × IssueRevFields :=
    if flags.has_isbn then
      ({ i4 with isbn := s3.2.isbn, no_isbn := s3.2.no_isbn
                 valid_isbn := validated_isbn s3.2.isbn }, s3.2)
    else
      (i4, { s3.2 with isbn := issue.isbn, no_isbn := issue.no_isbn })
  -- lines 1863-1869
  let s5 : IssueDisplay × IssueRevFields :=
    if flags.has_barcode then
      ({ s4.1 with barcode := s4.2.barcode, no_barcode := s4.2.no_barcode }, s4.2)
    else
      (s4.1, { s4.2 with barcode := issue.barcode, no_barcode := issue.no_barcode })
  -- lines 1871-1877
  let s6 : IssueDisplay × IssueRevFields :=
    if flags.has_rating then
      ({ s5.1 with rating := s5.2.rating, no_rating := s5.2.no_rating }, s5.2)
    else
      (s5.1, { s5.2 with rating := issue.rating, no_rating := issue.no_rating })
  -- lines 1879-1880
  ({ s6.1 with reserved := if clear_reservation then false else s6.1.reserved }, s6.2)

/-! ## Prerequisite resolution for issue revisions (spec-modelled)

Modelled from the spec: `IssueRevision._pre_stats_measurement` /
`_open_prereq_revisions` are absent from this snapshot of
`apps/oi/models.py` (only `apps/oi/tests/test_issue_revision.py`
references them).  Per spec section 4.6, the algorithm repeatedly takes
the set of not-yet-committed sibling revisions, commits the first whose
prerequisite (the revision it comes `after`) is already satisfied, and
removes it from the pending set; a full pass that fails to reduce the
pending set must raise a fatal "did not reduce" error rather than loop
forever.  The pass count is bounded by the size of the pending set. -/

/-- A sibling issue revision for prerequisite resolution: its id and the
id of the sibling it must come `after` (`none` = beginning of series). -/
structure PrereqRev where
  id : Nat
  after : Option Nat
deriving DecidableEq

/-- Is the revision's prerequisite satisfied (its `after` already
committed, or no prerequisite)? -/
def prereq_ready (committed : List Nat) (r : PrereqRev) : Bool :=
  match r.after with
  | none => true
  | some a => committed.contains a

/-- One pass: commit the first pending revision whose prerequisite is
satisfied, removing it from the pending set; `none` when a full pass
finds nothing to commit. -/
def resolve_pass (pending : List PrereqRev) (committed : List Nat) :
    Option (List PrereqRev × List Nat) :=
  match pending.find? (prereq_ready committed) with
  | none => none
  | some r => some (pending.filter (fun x => !(x.id == r.id)), r.id :: committed)

/-- The bounded resolution loop: at most `fuel` passes; a pass that does
not reduce the pending set raises the fatal error. -/
def resolve : Nat → List PrereqRev → List Nat → Except String (List Nat)
  | _, [], committed => .ok committed
  | 0, _ :: _, _ => .error "prerequisite resolution did not reduce"
  | fuel + 1, p :: ps, committed =>
    match resolve_pass (p :: ps) committed with
    | none => .error "prerequisite resolution did not reduce"
    | some (pending1, committed1) => resolve fuel pending1 committed1

/-- Prerequisite resolution entry point: the pass bound is the size of
the pending set. -/
def pre_stats_resolve (pending : List PrereqRev) : Except String (List Nat) :=
  resolve pending.length pending []

/-- `n` issue revisions with ids `k, k+1, ...`, each chained `after` its
predecessor (`after = none` for id 0). -/
def chain_from : Nat → Nat → List PrereqRev
  | _, 0 => []
  | k, n + 1 =>
    { id := k, after := if k = 0 then none else some (k - 1) } :: chain_from (k + 1) n

/-- An acyclic `after` chain of `n` revisions with ids `0, ..., n-1`. -/
def chain_revs (n : Nat) : List PrereqRev :=
  chain_from 0 n

/-- A cyclic `after` chain: each revision comes after the next one,
wrapping around. -/
def cycle_revs (n : Nat) : List PrereqRev :=
  (List.range n).map (fun i => { id := i, after := some ((i + 1) % n) })

/-- `[k+n-1, ..., k+1, k]`: the commit order produced for a chain. -/
def rev_range : Nat → Nat → List Nat
  | _, 0 => []
  | k, n + 1 => rev_range (k + 1) n ++ [k]

/-! ## Sort-code space-making (spec-modelled)

Modelled from the spec: `IssueRevision._ensure_sort_code_space` is absent
from this snapshot (only the tests reference it; the in-commit shifting
at lines 1636-1650 relies on the caller passing `space_count = 0` for
subsequent siblings).  Per spec section 4.6: determine the target
insertion point from `after` (`-1` for the beginning), shift every later
issue by the number of issues being inserted, no-op when there is nothing
later, and no-op when the expected shift has already been applied
(detected by comparing the first later issue's sort code against the
insertion point plus the batch size). -/

/-- An issue row as seen by sort-code space-making. -/
structure SortIssue where
  id : Nat
  sort_code : Int
deriving DecidableEq

/-- Modelled from the spec: `_ensure_sort_code_space`.  `after_code` is
the sort code of the `after` issue (−1 for the beginning of the series),
`batch` the number of issues being inserted in this add batch, and
`later` the issues of the series with sort code strictly greater than
`after_code`, in sort-code order. -/
def ensure_sort_code_space (after_code : Int) (batch : Nat)
    (later : List SortIssue) : List SortIssue :=
  match later.head? with
  | none => later
  | some first =>
    if after_code + (batch : Int) < first.sort_code then
      -- the expected space already exists: a sibling revision of the
      -- same batch already shifted (idempotence guard)
      later
    else
      later.map (fun i => { i with sort_code := i.sort_code + (batch : Int) })

/-! ## Reprint links: polymorphic revision (ReprintRevision)

`ReprintRevision` (lines 2194-2366) covers four concrete link kinds
(`Reprint` = story→story, `ReprintFromIssue` = issue→story,
`ReprintToIssue` = story→issue, `IssueReprint` = issue→issue), each a
separate table.  We model all four row shapes with one record; for the
`ReprintFromIssue` / `IssueReprint` tables the `origin` field holds
`origin_issue`, and for `ReprintToIssue` / `IssueReprint` the `target`
field holds `target_issue`. -/

/-- Changeset workflow states (`apps/oi/states.py`, outside this
snapshot; the spec gives the enumeration). -/
inductive CState where
  | unreserved
  | opened
  | pending
  | reviewing
  | approved
  | discarded
deriving DecidableEq

/-- The four reprint link kinds (`REPRINT_TYPES`). -/
inductive ReprintType where
  | story_to_story
  | issue_to_story
  | story_to_issue
  | issue_to_issue
deriving DecidableEq

/-- A concrete reprint link row (any of the four tables). -/
structure LinkRow where
  id : Nat
  origin : Nat
  target : Nat
  notes : String
  reserved : Bool
deriving DecidableEq

/-- A `StoryRevision` as seen by reprint commits: its id and the story it
resolves to once committed. -/
structure StoryRevRec where
  id : Nat
  story : Option Nat
deriving DecidableEq

/-- A `ReprintRevision` row (lines 2194-2238). -/
structure ReprintRev where
  id : Nat
  reprint : Option Nat
  reprint_from_issue : Option Nat
  reprint_to_issue : Option Nat
  issue_reprint : Option Nat
  origin_story : Option Nat
  origin_revision : Option Nat
  origin_issue : Option Nat
  target_story : Option Nat
  target_revision : Option Nat
  target_issue : Option Nat
  notes : String
  in_type : Option ReprintType
  out_type : Option ReprintType
  previous_revision : Option Nat
  next_revision : Option Nat
  changeset_state : CState
  deleted : Bool
deriving DecidableEq

/-- The revision's foreign key for a given link kind (`REPRINT_FIELD`). -/
def link_field (rev : ReprintRev) : ReprintType → Option Nat
  | .story_to_story => rev.reprint
  | .issue_to_story => rev.reprint_from_issue
  | .story_to_issue => rev.reprint_to_issue
  | .issue_to_issue => rev.issue_reprint

/-- Write the revision's foreign key for a given link kind. -/
def set_link_field (rev : ReprintRev) : ReprintType → Option Nat → ReprintRev
  | .story_to_story, v => { rev with reprint := v }
  | .issue_to_story, v => { rev with reprint_from_issue := v }
  | .story_to_issue, v => { rev with reprint_to_issue := v }
  | .issue_to_issue, v => { rev with issue_reprint := v }

/-- The reprint-link database: revisions, story revisions, and the four
concrete link tables, plus an id supply for `objects.create`. -/
structure ReprintDB where
  reprint_revisions : List ReprintRev
  story_revisions : List StoryRevRec
  reprints : List LinkRow
  reprints_from_issue : List LinkRow
  reprints_to_issue : List LinkRow
  issue_reprints : List LinkRow
  next_link_id : Nat

/-- The concrete table for a link kind. -/
def link_table (db : ReprintDB) : ReprintType → List LinkRow
  | .story_to_story => db.reprints
  | .issue_to_story => db.reprints_from_issue
  | .story_to_issue => db.reprints_to_issue
  | .issue_to_issue => db.issue_reprints

/-- Replace the concrete table for a link kind. -/
def set_link_table (db : ReprintDB) : ReprintType → List LinkRow → ReprintDB
  | .story_to_story, rows => { db with reprints := rows }
  | .issue_to_story, rows => { db with reprints_from_issue := rows }
  | .story_to_issue, rows => { db with reprints_to_issue := rows }
  | .issue_to_issue, rows => { db with issue_reprints := rows }

/-- `ReprintRevision._get_source` (lines 2240-2264) as the (kind, row id)
of the concrete link the revision currently points at: `out_type` if set,
else `in_type`; `none` when the corresponding foreign key is null.  (The
approved-and-deleted short-circuit at line 2241 is inert during a commit,
which runs before the changeset is marked approved.) -/
def get_source_link (rev : ReprintRev) : Option (ReprintType × Nat) :=
  match (match rev.out_type with
         | some t => some t
         | none => rev.in_type) with
  | none => none
  | some t => (link_field rev t).map (fun lid => (t, lid))

/-- The `origin` local of `commit_to_display` for the computed out kind
(lines 2284, 2319, 2330, 2341, 2352): the resolved origin story for
story-origin kinds, the origin issue otherwise. -/
def out_origin (rev : ReprintRev) : ReprintType → Option Nat
  | .story_to_story => rev.origin_story
  | .story_to_issue => rev.origin_story
  | .issue_to_story => rev.origin_issue
  | .issue_to_issue => rev.origin_issue

/-- The `target` counterpart (lines 2290, 2302, 2342, 2353). -/
def out_target (rev : ReprintRev) : ReprintType → Option Nat
  | .story_to_story => rev.target_story
  | .story_to_issue => rev.target_issue
  | .issue_to_story => rev.target_story
  | .issue_to_issue => rev.target_issue

/-- The out kind of a reprint revision, decided by which origin/target
fields are populated (lines 2280-2304): a present origin story or origin
story-revision selects a story origin, else the origin is an issue; same
for the target. -/
def computed_out_type (rev : ReprintRev) : ReprintType :=
  if rev.origin_story.isSome || rev.origin_revision.isSome then
    if rev.target_story.isSome || rev.target_revision.isSome then
      .story_to_story
    else .story_to_issue
  else
    if rev.target_story.isSome || rev.target_revision.isSome then
      .issue_to_story
    else .issue_to_issue

/-- `ReprintRevision.commit_to_display` (lines 2269-2366). -/
def reprint_commit_to_display (db : ReprintDB) (rid : Nat)
    (clear_reservation : Bool) : Option ReprintDB :=
  match db.reprint_revisions.find? (fun r => r.id == rid) with
  | none => none
  | some rev =>
    if rev.deleted then
      -- lines 2270-2277: null the in_type foreign key on every revision
      -- that references the deleted link, then delete the link row
      match rev.in_type, get_source_link rev with
      | some k, some (k', lid) =>
        let db1 := set_link_table db k'
          ((link_table db k').filter (fun row => !(row.id == lid)))
        some { db1 with
          reprint_revisions := db.reprint_revisions.map (fun r =>
            if link_field r k == some lid then set_link_field r k none else r) }
      | _, _ => none
    else
      -- lines 2280-2304: the out kind is decided by which origin/target
      -- fields are populated, resolving same-changeset story revisions
      let rev1? : Option ReprintRev :=
        match rev.origin_revision with
        | none => some rev
        | some orid =>
          (db.story_revisions.find? (fun s => s.id == orid)).map
            (fun s => { rev with origin_story := s.story, origin_revision := none })
      match rev1? with
      | none => none
      | some rev1 =>
        let rev2? : Option ReprintRev :=
          match rev1.target_revision with
          | none => some rev1
          | some trid =>
            (db.story_revisions.find? (fun s => s.id == trid)).map
              (fun s => { rev1 with target_story := s.story, target_revision := none })
        match rev2? with
        | none => none
        | some rev2 =>
          let out : ReprintType := computed_out_type rev
          match out_origin rev2 out, out_target rev2 out with
          | some o, some t =>
            match rev.in_type with
            | some k =>
              if k ≠ out then
                -- lines 2306-2313: detach the old concrete link row from
                -- every revision referencing it and delete it, then
                -- lines 2317-2359 (create branch): create the new row
                match get_source_link rev2 with
                | none => none
                | some (k', lid) =>
                  let revs1 := db.reprint_revisions.map (fun r =>
                    if link_field r k == some lid then set_link_field r k none else r)
                  let rev3 := set_link_field rev2 k none
                  let row : LinkRow :=
                    { id := db.next_link_id, origin := o, target := t
                      notes := rev2.notes, reserved := false }
                  let rev4 := { set_link_field rev3 out (some row.id) with
                                out_type := some out }
                  let db1 := set_link_table db k'
                    ((link_table db k').filter (fun r => !(r.id == lid)))
                  let db2 := set_link_table db1 out (link_table db1 out ++ [row])
                  some { db2 with
                    reprint_revisions := revs1.map (fun r =>
                      if r.id == rid then rev4 else r)
                    next_link_id := db.next_link_id + 1 }
              else
                -- lines 2317-2359 (update branch): update the existing
                -- concrete row of the unchanged kind in place, then
                -- lines 2361-2366: clear its reservation and save
                match link_field rev2 k with
                | none => none
                | some lid =>
                  let rev4 := { rev2 with out_type := some out }
                  let db1 := set_link_table db out
                    ((link_table db out).map (fun r =>
                      if r.id == lid then
                        { r with origin := o, target := t, notes := rev2.notes
                                 reserved := if clear_reservation then false else r.reserved }
                      else r))
                  some { db1 with
                    reprint_revisions := db.reprint_revisions.map (fun r =>
                      if r.id == rid then rev4 else r) }
            | none =>
              -- no inbound kind (a brand-new link): create branch only
              let row : LinkRow :=
                { id := db.next_link_id, origin := o, target := t
                  notes := rev2.notes, reserved := false }
              let rev4 := { set_link_field rev2 out (some row.id) with
                            out_type := some out }
              let db1 := set_link_table db out (link_table db out ++ [row])
              some { db1 with
                reprint_revisions := db.reprint_revisions.map (fun r =>
                  if r.id == rid then rev4 else r)
                next_link_id := db.next_link_id + 1 }
          | _, _ => none

/-! ## Cloning link revisions: previous_revision lookup

`SeriesBondRevisionManager._do_create_revision` (lines 1343-1367) and
`ReprintRevisionManager._do_create_revision` (lines 2131-2187) look up
the unique prior revision of the link whose changeset is APPROVED and
which has no successor (`next_revision=None`), via Django's
`objects.get`, which raises `DoesNotExist` on zero matches and
`MultipleObjectsReturned` on more than one. -/

/-- The two failure modes of Django's `QuerySet.get`. -/
inductive GetError where
  | doesNotExist
  | multipleObjectsReturned
deriving DecidableEq

/-- Django's `objects.get(...)`: the unique element satisfying the
filter, or the corresponding error. -/
def objects_get {α : Type} (l : List α) (p : α → Bool) : Except GetError α :=
  match l.filter p with
  | [] => .error .doesNotExist
  | [x] => .ok x
  | _ :: _ :: _ => .error .multipleObjectsReturned

/-- A `gcd.SeriesBond` display row. -/
structure SeriesBondRow where
  id : Nat
  origin : Option Nat
  origin_issue : Option Nat
  target : Option Nat
  target_issue : Option Nat
  bond_type : Option Nat
  notes : String
deriving DecidableEq

/-- A `SeriesBondRevision` row (lines 1374-1399). -/
structure SeriesBondRevRec where
  id : Nat
  series_bond : Option Nat
  origin : Option Nat
  origin_issue : Option Nat
  target : Option Nat
  target_issue : Option Nat
  bond_type : Option Nat
  notes : String
  previous_revision : Option Nat
  next_revision : Option Nat
  changeset_state : CState
deriving DecidableEq

/-- The `previous_revision` filter of lines 1361-1364 / 2136-2182: prior
revisions of this link with no successor in an APPROVED changeset. -/
def series_bond_prior (bond_id : Nat) (r : SeriesBondRevRec) : Bool :=
  r.series_bond == some bond_id && r.next_revision == none &&
    r.changeset_state == CState.approved

/-- `SeriesBondRevisionManager._do_create_revision` (lines 1343-1367):
clone a revision from a series bond; `new_id` is the id of the new
revision row and `state` its changeset's state. -/
def series_bond_do_create_revision (revs : List SeriesBondRevRec)
    (bond : SeriesBondRow) (new_id : Nat) (state : CState) :
    Except GetError SeriesBondRevRec :=
  let revision : SeriesBondRevRec :=
    { id := new_id, series_bond := some bond.id
      origin := bond.origin, origin_issue := bond.origin_issue
      target := bond.target, target_issue := bond.target_issue
      bond_type := bond.bond_type, notes := bond.notes
      previous_revision := none, next_revision := none
      changeset_state := state }
  (objects_get revs (series_bond_prior bond.id)).map
    (fun previous_revision => { revision with previous_revision := some previous_revision.id })

/-- The `previous_revision` filter for reprint links (lines 2136-2182):
prior revisions whose foreign key of the link's kind is this row, with no
successor, in an APPROVED changeset. -/
def reprint_prior (kind : ReprintType) (link_id : Nat) (r : ReprintRev) : Bool :=
  link_field r kind == some link_id && r.next_revision == none &&
    r.changeset_state == CState.approved

/-- A `ReprintRevision` row with every field empty (used to build
clones). -/
def empty_reprint_revision (new_id : Nat) (state : CState) : ReprintRev :=
  { id := new_id, reprint := none, reprint_from_issue := none
    reprint_to_issue := none, issue_reprint := none
    origin_story := none, origin_revision := none, origin_issue := none
    target_story := none, target_revision := none, target_issue := none
    notes := "", in_type := none, out_type := none
    previous_revision := none, next_revision := none
    changeset_state := state, deleted := false }

/-- `ReprintRevisionManager._do_create_revision` (lines 2131-2187): clone
a revision from a concrete reprint link row of the given kind, copying
the kind's origin/target fields and setting `in_type`, then look up the
unique latest approved prior revision. -/
def reprint_do_create_revision (revs : List ReprintRev) (kind : ReprintType)
    (row : LinkRow) (new_id : Nat) (state : CState) :
    Except GetError ReprintRev :=
  let base := empty_reprint_revision new_id state
  let revision : ReprintRev :=
    match kind with
    | .story_to_story =>
      { base with reprint := some row.id, in_type := some .story_to_story
                  origin_story := some row.origin, target_story := some row.target }
    | .issue_to_story =>
      { base with reprint_from_issue := some row.id, in_type := some .issue_to_story
                  origin_issue := some row.origin, target_story := some row.target }
    | .story_to_issue =>
      { base with reprint_to_issue := some row.id, in_type := some .story_to_issue
                  origin_story := some row.origin, target_issue := some row.target }
    | .issue_to_issue =>
      { base with issue_reprint := some row.id, in_type := some .issue_to_issue
                  origin_issue := some row.origin, target_issue := some row.target }
  (objects_get revs (reprint_prior kind row.id)).map
    (fun previous_revision =>
      { revision with previous_revision := some previous_revision.id
                      notes := row.notes })

/-! ## Concrete example databases -/

/-- An empty display database. -/
def empty_db : DB :=
  { publishers := [1], series := [], issues := [], brands := []
    brand_groups := [], indicia_publishers := []
    publisher_series_count := fun _ => 0
    publisher_issue_count := fun _ => 0
    series_issue_count := fun _ => 0
    brand_issue_count := fun _ => 0
    brand_group_issue_count := fun _ => 0
    indicia_publisher_issue_count := fun _ => 0
    stats := fun _ => 0 }

/-- Publisher 1 with one comics series 10 (country 1, language 1) holding
one issue 50, all counters consistent. -/
def example_db : DB :=
  { publishers := [1]
    series := [{ id := 10, publisher := 1, country := 1, language := 1
                 is_comics_publication := true, is_singleton := false }]
    issues := [{ id := 50, series := 10, variant_of := none, brand := none
                 indicia_publisher := none, sort_code := 0, number := "1" }]
    brands := [], brand_groups := [], indicia_publishers := []
    publisher_series_count := fun x => if x = 1 then 1 else 0
    publisher_issue_count := fun x => if x = 1 then 1 else 0
    series_issue_count := fun x => if x = 10 then 1 else 0
    brand_issue_count := fun _ => 0
    brand_group_issue_count := fun _ => 0
    indicia_publisher_issue_count := fun _ => 0
    stats := fun _ => 0 }

/-- Publisher 1 with a comics series 10 and a NON-comics series 11, and
one non-variant issue 50 in series 10; all counters consistent
(`publisher_issue_count 1 = 1` counts issue 50, series 11 contributes
nothing to `publisher_series_count`). -/
def move_db : DB :=
  { publishers := [1]
    series := [{ id := 10, publisher := 1, country := 1, language := 1
                 is_comics_publication := true, is_singleton := false },
               { id := 11, publisher := 1, country := 1, language := 1
                 is_comics_publication := false, is_singleton := false }]
    issues := [{ id := 50, series := 10, variant_of := none, brand := none
                 indicia_publisher := none, sort_code := 0, number := "1" }]
    brands := [], brand_groups := [], indicia_publishers := []
    publisher_series_count := fun x => if x = 1 then 1 else 0
    publisher_issue_count := fun x => if x = 1 then 1 else 0
    series_issue_count := fun x => if x = 10 then 1 else 0
    brand_issue_count := fun _ => 0
    brand_group_issue_count := fun _ => 0
    indicia_publisher_issue_count := fun _ => 0
    stats := fun _ => 0 }

/-- Publisher 1 with one comics series 10 and no issues, all counters 0. -/
def scenario_db : DB :=
  { publishers := [1]
    series := [{ id := 10, publisher := 1, country := 1, language := 1
                 is_comics_publication := true, is_singleton := false }]
    issues := [], brands := [], brand_groups := [], indicia_publishers := []
    publisher_series_count := fun x => if x = 1 then 1 else 0
    publisher_issue_count := fun _ => 0
    series_issue_count := fun _ => 0
    brand_issue_count := fun _ => 0
    brand_group_issue_count := fun _ => 0
    indicia_publisher_issue_count := fun _ => 0
    stats := fun _ => 0 }

/-- The `IssueRevision` commit of the spec's scenario: add issue `100`
numbered "1" with `after=None`, no variant, to series 10. -/
def scenario_add : Op :=
  Op.issueAdd 100 10 none none none none "1" 1

/-- A sample sequence of commits: series add, two issue adds, one issue
delete. -/
def sample_ops : List Op :=
  [Op.seriesAdd 10 1 1 1 true,
   Op.issueAdd 100 10 none none none none "1" 1,
   Op.issueAdd 101 10 (some 100) none none none "2" 1,
   Op.issueDelete 100]

instance (db : DB) : Decidable (counts_ok db) := by
  unfold counts_ok; infer_instance

instance (db : DB) : Decidable (counts_ok_literal db) := by
  unfold counts_ok_literal; infer_instance

instance (db : DB) : Decidable (db_wf db) := by
  unfold db_wf; infer_instance

/-- A concrete story→story link revision edited to target a whole issue
(no target story), so its computed out kind becomes story→issue. -/
def c7_rev : ReprintRev :=
  { id := 1, reprint := some 7, reprint_from_issue := none,
    reprint_to_issue := none, issue_reprint := none,
    origin_story := some 20, origin_revision := none, origin_issue := none,
    target_story := none, target_revision := none, target_issue := some 30,
    notes := "moved", in_type := some .story_to_story, out_type := none,
    previous_revision := none, next_revision := none,
    changeset_state := .reviewing, deleted := false }

/-- A sibling revision referencing the same story→story row 7. -/
def c7_sibling : ReprintRev :=
  { id := 2, reprint := some 7, reprint_from_issue := none,
    reprint_to_issue := none, issue_reprint := none,
    origin_story := some 20, origin_revision := none, origin_issue := none,
    target_story := some 25, target_revision := none, target_issue := none,
    notes := "", in_type := some .story_to_story,
    out_type := some .story_to_story,
    previous_revision := none, next_revision := none,
    changeset_state := .approved, deleted := false }

/-- The reprint database before the shape-changing commit: one
story→story row (id 7) referenced by both revisions. -/
def c7_db : ReprintDB :=
  { reprint_revisions := [c7_rev, c7_sibling],
    story_revisions := [],
    reprints := [{ id := 7, origin := 20, target := 25, notes := "old",
                   reserved := true }],
    reprints_from_issue := [], reprints_to_issue := [], issue_reprints := [],
    next_link_id := 8 }

/-- The database after committing revision 1: the story→story row 7 is
deleted, both revisions' `reprint` foreign keys are nulled, and a fresh
story→issue row with id 8 carries the resolved origin, target and notes. -/
def c7_db' : ReprintDB :=
  { reprint_revisions :=
      [{ c7_rev with
          reprint := none,
          reprint_to_issue := some 8,
          out_type := some .story_to_issue },
       { c7_sibling with reprint := none }],
    story_revisions := [],
    reprints := [],
    reprints_from_issue := [],
    reprints_to_issue := [{ id := 8, origin := 20, target := 30,
                            notes := "moved", reserved := false }],
    issue_reprints := [],
    next_link_id := 9 }

/-! # Theorems -/

/-! ## List counting and lookup helpers -/

theorem cnt_nil {α : Type} (p : α → Bool) : cnt p [] = 0 := rfl

theorem cnt_cons {α : Type} (p : α → Bool) (a : α) (l : List α) :
    cnt p (a :: l) = (if p a then 1 else 0) + cnt p l := by
  by_cases h : p a <;>
    simp [cnt, List.filter_cons_of_pos, List.filter_cons_of_neg, h, Nat.add_comm]

theorem cnt_append {α : Type} (p : α → Bool) (l l' : List α) :
    cnt p (l ++ l') = cnt p l + cnt p l' := by
  simp [cnt, List.filter_append]

theorem cnt_singleton {α : Type} (p : α → Bool) (a : α) :
    cnt p [a] = if p a then 1 else 0 := by
  by_cases h : p a <;> simp [cnt, h]

theorem cnt_map_congr {α : Type} (p : α → Bool) (f : α → α) :
    ∀ l : List α, (∀ x ∈ l, p (f x) = p x) → cnt p (l.map f) = cnt p l
  | [], _ => rfl
  | a :: l, h => by
    have ha : p (f a) = p a := h a (by simp)
    have ih := cnt_map_congr p f l (fun x hx => h x (by simp [hx]))
    simp only [List.map_cons, cnt_cons, ha, ih]

theorem cnt_congr {α : Type} (p q : α → Bool) :
    ∀ l : List α, (∀ x ∈ l, p x = q x) → cnt p l = cnt q l
  | [], _ => rfl
  | a :: l, h => by
    have ih := cnt_congr p q l (fun x hx => h x (by simp [hx]))
    simp only [cnt_cons, h a (by simp), ih]

theorem cnt_filter_ne {α : Type} (key : α → Nat) (p : α → Bool) :
    ∀ l : List α, l.Pairwise (fun x y => key x ≠ key y) → ∀ a ∈ l,
      cnt p l = cnt p (l.filter (fun x => !(key x == key a))) + (if p a then 1 else 0)
  | [], _, a, ha => by simp at ha
  | b :: t, hpw, a, ha => by
    rw [List.pairwise_cons] at hpw
    by_cases hb : key b = key a
    · have hab : a = b := by
        rcases List.mem_cons.mp ha with h | h
        · exact h
        · exact absurd hb.symm (fun hc => (hpw.1 a h) hc.symm)
      have hfilter : t.filter (fun x => !(key x == key a)) = t := by
        apply List.filter_eq_self.mpr
        intro x hx
        simp only [Bool.not_eq_true', beq_eq_false_iff_ne]
        exact fun hc => (hpw.1 x hx) (hb.trans hc.symm)
      subst hab
      simp [cnt_cons, List.filter_cons_of_neg, hb, hfilter, Nat.add_comm]
    · have hat : a ∈ t := by
        rcases List.mem_cons.mp ha with h | h
        · exact absurd (h ▸ rfl) hb
        · exact h
      have ih := cnt_filter_ne key p t hpw.2 a hat
      have hkeep : (fun x => !(key x == key a)) b = true := by
        simp [hb]
      rw [List.filter_cons]
      simp only [hkeep, if_true]
      simp only [cnt_cons, ih]
      omega

theorem find?_append_of_isSome {α : Type} (p : α → Bool) :
    ∀ l l' : List α, (l.find? p).isSome → (l ++ l').find? p = l.find? p
  | [], _, h => by simp [List.find?] at h
  | a :: t, l', h => by
    by_cases hpa : p a
    · simp [List.find?_cons_of_pos, hpa]
    · rw [List.find?_cons_of_neg _ hpa] at h
      rw [List.cons_append, List.find?_cons_of_neg _ hpa,
        List.find?_cons_of_neg _ hpa]
      exact find?_append_of_isSome p t l' h

theorem find?_isSome_of_mem {α : Type} (p : α → Bool) :
    ∀ l : List α, ∀ a ∈ l, p a = true → (l.find? p).isSome
  | [], a, ha, _ => by simp at ha
  | b :: t, a, ha, hpa => by
    by_cases hpb : p b
    · simp [List.find?_cons_of_pos, hpb]
    · rcases List.mem_cons.mp ha with h | h
      · exact absurd (h ▸ hpa) (by simp [hpb])
      · rw [List.find?_cons_of_neg _ hpb]
        exact find?_isSome_of_mem p t a h hpa

theorem bump_eq (f : Nat → Int) (k : Nat) (d : Int) : bump f k d k = f k + d := by
  simp [bump]

theorem bump_ne (f : Nat → Int) (k : Nat) (d : Int) (x : Nat) (h : x ≠ k) :
    bump f k d x = f x := by
  simp [bump, h]

theorem bump_many_eq (d : Int) :
    ∀ (keys : List Nat) (f : Nat → Int) (x : Nat), keys.Nodup →
      bump_many f keys d x = if x ∈ keys then f x + d else f x
  | [], f, x, _ => by simp [bump_many]
  | g :: gs, f, x, h => by
    rw [List.nodup_cons] at h
    have step : bump_many f (g :: gs) d = bump_many (bump f g d) gs d := rfl
    rw [step, bump_many_eq d gs (bump f g d) x h.2]
    by_cases hxg : x = g
    · subst hxg
      simp [h.1, bump_eq]
    · simp [bump_ne f g d x hxg, hxg]

/-! ## Keyword string round-trip -/

theorem split_chars_ne_nil : ∀ l : List Char, split_chars l ≠ []
  | [] => by simp [split_chars]
  | c :: cs => by
    by_cases h : c = ';'
    · simp [split_chars, h]
    · have := split_chars_ne_nil cs
      simp only [split_chars, h, if_false]
      cases hcs : split_chars cs with
      | nil => exact absurd hcs this
      | cons a t => simp

theorem split_chars_no_semi : ∀ n : List Char, (∀ c ∈ n, c ≠ ';') →
    split_chars n = [n]
  | [], _ => rfl
  | c :: cs, h => by
    have hc : ¬ c = ';' := h c (by simp)
    have ih := split_chars_no_semi cs (fun x hx => h x (by simp [hx]))
    simp [split_chars, hc, ih]

theorem split_chars_append_semi : ∀ n rest : List Char, (∀ c ∈ n, c ≠ ';') →
    split_chars (n ++ ';' :: rest) = n :: split_chars rest
  | [], rest, _ => by simp [split_chars]
  | c :: n', rest, h => by
    have hc : ¬ c = ';' := h c (by simp)
    have ih := split_chars_append_semi n' rest (fun x hx => h x (by simp [hx]))
    simp [split_chars, hc, ih]

theorem dropWhile_eq_self_of_head (p : Char → Bool) (l : List Char)
    (h : ∀ c, l.head? = some c → p c = false) : l.dropWhile p = l := by
  cases l with
  | nil => rfl
  | cons a t =>
    rw [List.dropWhile_cons, h a rfl]
    simp

theorem strip_chars_clean (n : List Char)
    (hhead : ∀ c, n.head? = some c → ¬ c.isWhitespace)
    (hlast : ∀ c, n.getLast? = some c → ¬ c.isWhitespace) :
    strip_chars n = n := by
  unfold strip_chars
  rw [dropWhile_eq_self_of_head _ n
    (fun c hc => by simpa using hhead c hc)]
  rw [dropWhile_eq_self_of_head _ n.reverse
    (fun c hc => by
      rw [List.head?_reverse] at hc
      simpa using hlast c hc)]
  exact List.reverse_reverse n

theorem strip_chars_space_cons (n : List Char) :
    strip_chars (' ' :: n) = strip_chars n := by
  unfold strip_chars
  rw [List.dropWhile_cons]
  simp [show (' ' : Char).isWhitespace = true by decide]

theorem join_chars_ne_nil : ∀ names : List (List Char), names ≠ [] →
    (∀ n ∈ names, n ≠ []) → join_chars names ≠ []
  | [], h, _ => absurd rfl h
  | [n], _, hne => by simpa [join_chars] using hne n (by simp)
  | n :: m :: rest, _, hne => by
    have : n ≠ [] := hne n (by simp)
    simp only [join_chars]
    cases n with
    | nil => exact absurd rfl this
    | cons c cs => simp

theorem split_join_roundtrip : ∀ names : List (List Char),
    (∀ n ∈ names, clean_name n) → names ≠ [] →
    (split_chars (join_chars names)).map strip_chars = names
  | [], _, h => absurd rfl h
  | [n], h, _ => by
    obtain ⟨-, hsemi, hhead, hlast⟩ := h n (by simp)
    simp [join_chars, split_chars_no_semi n hsemi, strip_chars_clean n hhead hlast]
  | n :: m :: rest, h, _ => by
    obtain ⟨-, hsemi, hhead, hlast⟩ := h n (by simp)
    have ih := split_join_roundtrip (m :: rest)
      (fun x hx => h x (by simp [List.mem_cons] at hx ⊢; tauto)) (by simp)
    have hjoin : join_chars (n :: m :: rest) =
        n ++ ';' :: ' ' :: join_chars (m :: rest) := rfl
    rw [hjoin, split_chars_append_semi n _ hsemi]
    have hsplit : split_chars (' ' :: join_chars (m :: rest)) =
        (' ' :: (split_chars (join_chars (m :: rest))).head!) ::
          (split_chars (join_chars (m :: rest))).tail := by
      cases hs : split_chars (join_chars (m :: rest)) with
      | nil => exact absurd hs (split_chars_ne_nil _)
      | cons a t =>
        simp [split_chars, show ¬ (' ' : Char) = ';' by decide, hs]
    rw [hsplit]
    cases hs : split_chars (join_chars (m :: rest)) with
    | nil => exact absurd hs (split_chars_ne_nil _)
    | cons a t =>
      rw [hs] at ih
      simp only [hs, List.head!, List.tail, List.map_cons,
        strip_chars_space_cons, strip_chars_clean n hhead hlast]
      simpa using ih

theorem save_keywords_get (names : List (List Char)) (x : List (List Char))
    (hclean : ∀ n ∈ names, clean_name n) :
    save_keywords (get_keywords names) x = (names, get_keywords names) := by
  cases hn : names with
  | nil => simp [save_keywords, get_keywords, join_chars]
  | cons m rest =>
    have hne : join_chars (m :: rest) ≠ [] := by
      apply join_chars_ne_nil _ (by simp)
      intro n hmem
      exact (hclean n (hn ▸ hmem)).1
    have hrt := split_join_roundtrip (m :: rest)
      (fun n hmem => hclean n (hn ▸ hmem)) (by simp)
    simp only [save_keywords, get_keywords, hne, ne_eq, not_false_eq_true,
      if_true, hrt]

/-- Claim C2: cloning a revision from an existing display publisher with
`clone_revision` and immediately committing it with no field edited leaves
every regular field of the publisher unchanged (the only field that moves
is the excluded `reserved` flag), leaves the revision as cloned, and is a
statistics no-op: the cached counters (`imprint_count`, `series_count`,
`issue_count`, part of the returned row) and the global statistics store
are unchanged.  Hypothesis: the publisher's keyword tag names are usable
(nonempty, no `';'`, no surrounding whitespace). -/
theorem C2_clone_commit_roundtrip (pub : Publisher) (fresh_id : Nat) (stats : Stats)
    (hclean : ∀ n ∈ pub.keywords, clean_name n) :
    publisher_commit_to_display (publisher_do_create_revision pub) (some pub)
        fresh_id stats true =
      (some { pub with reserved := false },
       publisher_do_create_revision pub, stats) := by
  have hsave := save_keywords_get pub.keywords pub.keywords hclean
  simp only [publisher_commit_to_display, publisher_do_create_revision,
    get_keywords] at *
  simp only [Bool.false_eq_true, if_false, hsave]
  simp

/-- Witness for C2 at a concrete publisher with two keyword tags. -/
theorem C2_clone_commit_roundtrip_witness :
    publisher_commit_to_display
        (publisher_do_create_revision
          { id := 7, name := "Acme".toList, year_began := some 1950
            year_ended := none, year_began_uncertain := false
            year_ended_uncertain := false, url := [], notes := []
            keywords := ["hero".toList, "war".toList]
            country := 3, is_master := true, parent := none
            imprint_count := 0, series_count := 2, issue_count := 5
            reserved := true })
        (some { id := 7, name := "Acme".toList, year_began := some 1950
                year_ended := none, year_began_uncertain := false
                year_ended_uncertain := false, url := [], notes := []
                keywords := ["hero".toList, "war".toList]
                country := 3, is_master := true, parent := none
                imprint_count := 0, series_count := 2, issue_count := 5
                reserved := true })
        0 (fun _ => 0) true =
      (some { id := 7, name := "Acme".toList, year_began := some 1950
              year_ended := none, year_began_uncertain := false
              year_ended_uncertain := false, url := [], notes := []
              keywords := ["hero".toList, "war".toList]
              country := 3, is_master := true, parent := none
              imprint_count := 0, series_count := 2, issue_count := 5
              reserved := false },
       publisher_do_create_revision
         { id := 7, name := "Acme".toList, year_began := some 1950
           year_ended := none, year_began_uncertain := false
           year_ended_uncertain := false, url := [], notes := []
           keywords := ["hero".toList, "war".toList]
           country := 3, is_master := true, parent := none
           imprint_count := 0, series_count := 2, issue_count := 5
           reserved := true },
       (fun _ => 0)) :=
  C2_clone_commit_roundtrip _ 0 (fun _ => 0) (by decide)


/-! ## Preservation of the cached-counter invariant -/

theorem issue_commit_add_preserves {db db' : DB} {iid rs : Nat}
    {ra rv rb rip : Option Nat} {num : String} {sc : Nat}
    (hwf : db_wf db) (hok : counts_ok db)
    (h : issue_commit_add db iid rs ra rv rb rip num sc = some db') :
    db_wf db' ∧ counts_ok db' := by
  obtain ⟨hw1, hw2, hw3⟩ := hwf
  obtain ⟨hok1, hok2, hok3, hok4, hok5, hok6⟩ := hok
  unfold issue_commit_add at h
  split at h
  · exact absurd h (by simp)
  rename_i sr hsr
  split at h
  · exact absurd h (by simp)
  rename_i ac hac
  split at h
  case isFalse => exact absurd h (by simp)
  rename_i hval
  injection h with h
  subst h
  have hsrid : sr.id = rs := by
    have := List.find?_some hsr
    simpa using this
  have hsrmem : sr ∈ db.series := List.mem_of_find?_eq_some hsr
  -- the sort-code shift changes no field that the counting predicates read
  have hshift : ∀ p : IssueRec → Bool,
      (∀ x : IssueRec, p { x with sort_code := x.sort_code + (sc : Int) } = p x) →
      cnt p (if 0 < sc then
        db.issues.map (fun i =>
          if i.series == rs && decide (ac < i.sort_code) then
            { i with sort_code := i.sort_code + (sc : Int) }
          else i)
        else db.issues) = cnt p db.issues := by
    intro p hp
    split
    · refine cnt_map_congr p _ db.issues (fun x _ => ?_)
      by_cases hc : (x.series == rs && decide (ac < x.sort_code)) = true <;>
        simp [hc, hp x]
    · rfl
  refine ⟨⟨?_, ?_, ?_⟩, ?_, ?_, ?_, ?_, ?_, ?_⟩ <;> dsimp only
  -- wf: pairwise distinct issue ids
  · rw [List.pairwise_append]
    refine ⟨?_, by simp, ?_⟩
    · split
      · rw [List.pairwise_map]
        refine hw1.imp ?_
        intro a b hab
        by_cases hca : (a.series == rs && decide (ac < a.sort_code)) = true <;>
          by_cases hcb : (b.series == rs && decide (ac < b.sort_code)) = true <;>
          simp [hca, hcb, hab]
      · exact hw1
    · intro a ha b hb
      simp only [List.mem_singleton] at hb
      subst hb
      split at ha
      · obtain ⟨x, hx, hfx⟩ := List.mem_map.mp ha
        have hid : a.id = x.id := by
          subst hfx
          by_cases hc : (x.series == rs && decide (ac < x.sort_code)) = true <;>
            simp [hc]
        simp only [hid]
        exact hval.1 x hx
      · exact hval.1 a ha
  -- wf: referential integrity issues → series
  · intro j hj
    rcases List.mem_append.mp hj with hj | hj
    · split at hj
      · obtain ⟨x, hx, hfx⟩ := List.mem_map.mp hj
        have hsame : j.series = x.series := by
          subst hfx
          by_cases hc : (x.series == rs && decide (ac < x.sort_code)) = true <;>
            simp [hc]
        rw [hsame]
        exact hw2 x hx
      · exact hw2 j hj
    · simp only [List.mem_singleton] at hj
      subst hj
      exact ⟨sr, hsrmem, hsrid⟩
  -- wf: brand groups nodup
  · exact hw3
  -- counts: series_issue_count
  · intro s hs
    have h0 := hok1 s hs
    rw [cnt_append, hshift (issue_in_series s.id) (fun x => rfl), cnt_singleton]
    cases rv with
    | some v =>
      simp only [Option.isSome_some, if_true]
      have hpred : issue_in_series s.id
          { id := iid, series := rs, variant_of := some v, brand := rb
            indicia_publisher := rip, sort_code := ac + 1, number := num } = false := by
        simp [issue_in_series]
      rw [hpred, h0]
      simp
    | none =>
      simp only [Option.isSome_none, Bool.false_eq_true, if_false]
      have hpred : issue_in_series s.id
          { id := iid, series := rs, variant_of := none, brand := rb
            indicia_publisher := rip, sort_code := ac + 1, number := num } =
          (rs == s.id) := by
        simp [issue_in_series]
      rw [hpred]
      by_cases hss : s.id = rs
      · subst hss
        rw [bump_eq, h0, beq_self_eq_true]
        simp
      · rw [bump_ne _ _ _ _ hss, h0,
          beq_eq_false_iff_ne.mpr (fun hc => hss hc.symm)]
        simp
  -- counts: publisher_series_count
  · intro p hp
    exact hok2 p hp
  -- counts: publisher_issue_count
  · intro p hp
    have h0 := hok3 p hp
    rw [cnt_append, hshift (issue_for_publisher db.series p) (fun x => rfl),
      cnt_singleton]
    cases rv with
    | some v =>
      simp only [Option.isSome_some, Bool.not_true, Bool.false_and,
        Bool.false_eq_true, if_false]
      have hpred : issue_for_publisher db.series p
          { id := iid, series := rs, variant_of := some v, brand := rb
            indicia_publisher := rip, sort_code := ac + 1, number := num } = false := by
        simp [issue_for_publisher]
      rw [hpred, h0]
      simp
    | none =>
      simp only [Option.isSome_none, Bool.not_false, Bool.true_and]
      have hpred : issue_for_publisher db.series p
          { id := iid, series := rs, variant_of := none, brand := rb
            indicia_publisher := rip, sort_code := ac + 1, number := num } =
          (sr.publisher == p && sr.is_comics_publication) := by
        simp only [issue_for_publisher]
        rw [hsr]
        simp
      rw [hpred]
      by_cases hcom : sr.is_comics_publication
      · rw [if_pos hcom]
        simp only [hcom, Bool.and_true]
        by_cases hpp : p = sr.publisher
        · subst hpp
          rw [bump_eq, h0, beq_self_eq_true]
          simp
        · rw [bump_ne _ _ _ _ hpp, h0,
            beq_eq_false_iff_ne.mpr (fun hc => hpp hc.symm)]
          simp
      · have hcf : sr.is_comics_publication = false := by simpa using hcom
        rw [if_neg hcom, h0]
        simp only [hcf, Bool.and_false]
        simp
  -- counts: brand_issue_count
  · intro b hb
    have h0 := hok4 b hb
    rw [cnt_append, hshift (issue_for_brand db.series b.id) (fun x => rfl),
      cnt_singleton]
    cases rv with
    | some v =>
      simp only [Option.isSome_some, Bool.not_true, Bool.false_and,
        Bool.false_eq_true, if_false]
      have hpred : issue_for_brand db.series b.id
          { id := iid, series := rs, variant_of := some v, brand := rb
            indicia_publisher := rip, sort_code := ac + 1, number := num } = false := by
        simp [issue_for_brand]
      rw [hpred, h0]
      simp
    | none =>
      simp only [Option.isSome_none, Bool.not_false, Bool.true_and]
      have hcomics : series_comics db.series
          { id := iid, series := rs, variant_of := none, brand := rb
            indicia_publisher := rip, sort_code := ac + 1, number := num } =
          sr.is_comics_publication := by
        simp only [series_comics]
        rw [hsr]
      have hpred : issue_for_brand db.series b.id
          { id := iid, series := rs, variant_of := none, brand := rb
            indicia_publisher := rip, sort_code := ac + 1, number := num } =
          ((rb == some b.id) && sr.is_comics_publication) := by
        simp only [issue_for_brand, hcomics]
        simp
      rw [hpred]
      by_cases hcom : sr.is_comics_publication
      · rw [if_pos hcom]
        simp only [hcom, Bool.and_true]
        cases rb with
        | none =>
          dsimp only
          rw [h0]
          simp
        | some b0 =>
          dsimp only
          by_cases hbb : b.id = b0
          · subst hbb
            rw [bump_eq, h0, beq_self_eq_true]
            simp
          · rw [bump_ne _ _ _ _ hbb, h0]
            have hne : ((some b0 : Option Nat) == some b.id) = false := by
              simp only [beq_eq_false_iff_ne, ne_eq, Option.some.injEq]
              exact fun hc => hbb hc.symm
            rw [hne]
            simp
      · have hcf : sr.is_comics_publication = false := by simpa using hcom
        rw [if_neg hcom, h0]
        simp only [hcf, Bool.and_false]
        simp
  -- counts: brand_group_issue_count
  · intro g hg
    have h0 := hok5 g hg
    rw [cnt_append,
      hshift (issue_for_brand_group db.series db.brands g) (fun x => rfl),
      cnt_singleton]
    cases rv with
    | some v =>
      simp only [Option.isSome_some, Bool.not_true, Bool.false_and,
        Bool.false_eq_true, if_false]
      have hpred : issue_for_brand_group db.series db.brands g
          { id := iid, series := rs, variant_of := some v, brand := rb
            indicia_publisher := rip, sort_code := ac + 1, number := num } = false := by
        simp [issue_for_brand_group]
      rw [hpred, h0]
      simp
    | none =>
      simp only [Option.isSome_none, Bool.not_false, Bool.true_and]
      have hcomics : series_comics db.series
          { id := iid, series := rs, variant_of := none, brand := rb
            indicia_publisher := rip, sort_code := ac + 1, number := num } =
          sr.is_comics_publication := by
        simp only [series_comics]
        rw [hsr]
      by_cases hcom : sr.is_comics_publication
      · rw [if_pos hcom]
        have hnodup : (brand_groups_of db rb).Nodup := by
          cases hrb : rb with
          | none => simp [brand_groups_of]
          | some b0 => exact hrb ▸ (hval.2 b0 hrb).2
        rw [bump_many_eq 1 (brand_groups_of db rb) db.brand_group_issue_count g hnodup]
        cases rb with
        | none =>
          have hpred : issue_for_brand_group db.series db.brands g
              { id := iid, series := rs, variant_of := none, brand := none
                indicia_publisher := rip, sort_code := ac + 1, number := num } = false := by
            simp [issue_for_brand_group]
          rw [hpred, show brand_groups_of db none = [] from rfl,
            if_neg (List.not_mem_nil g), h0]
          simp
        | some b0 =>
          obtain ⟨br, hbr⟩ := Option.isSome_iff_exists.mp (hval.2 b0 rfl).1
          have hgroups : brand_groups_of db (some b0) = br.group := by
            simp only [brand_groups_of]
            rw [hbr]
          have hpred : issue_for_brand_group db.series db.brands g
              { id := iid, series := rs, variant_of := none, brand := some b0
                indicia_publisher := rip, sort_code := ac + 1, number := num } =
              br.group.contains g := by
            simp only [issue_for_brand_group, hcomics, hcom]
            rw [hbr]
            simp
          rw [hpred, hgroups]
          by_cases hmem : g ∈ br.group
          · have hcontains : br.group.contains g = true := by
              exact List.elem_eq_true_of_mem hmem
            rw [hcontains, if_pos hmem, h0]
            simp
          · have hcontains : br.group.contains g = false := by
              rcases hc : br.group.contains g with _ | _
              · rfl
              · exact absurd (List.mem_of_elem_eq_true hc) hmem
            rw [hcontains, if_neg hmem, h0]
            simp
      · have hcf : sr.is_comics_publication = false := by simpa using hcom
        have hpred : issue_for_brand_group db.series db.brands g
            { id := iid, series := rs, variant_of := none, brand := rb
              indicia_publisher := rip, sort_code := ac + 1, number := num } = false := by
          simp [issue_for_brand_group, hcomics, hcf]
        rw [if_neg hcom, hpred, h0]
        simp
  -- counts: indicia_publisher_issue_count
  · intro q hq
    have h0 := hok6 q hq
    rw [cnt_append,
      hshift (issue_for_indicia_publisher db.series q) (fun x => rfl),
      cnt_singleton]
    cases rv with
    | some v =>
      simp only [Option.isSome_some, Bool.not_true, Bool.false_and,
        Bool.false_eq_true, if_false]
      have hpred : issue_for_indicia_publisher db.series q
          { id := iid, series := rs, variant_of := some v, brand := rb
            indicia_publisher := rip, sort_code := ac + 1, number := num } = false := by
        simp [issue_for_indicia_publisher]
      rw [hpred, h0]
      simp
    | none =>
      simp only [Option.isSome_none, Bool.not_false, Bool.true_and]
      have hcomics : series_comics db.series
          { id := iid, series := rs, variant_of := none, brand := rb
            indicia_publisher := rip, sort_code := ac + 1, number := num } =
          sr.is_comics_publication := by
        simp only [series_comics]
        rw [hsr]
      have hpred : issue_for_indicia_publisher db.series q
          { id := iid, series := rs, variant_of := none, brand := rb
            indicia_publisher := rip, sort_code := ac + 1, number := num } =
          ((rip == some q) && sr.is_comics_publication) := by
        simp only [issue_for_indicia_publisher, hcomics]
        simp
      rw [hpred]
      by_cases hcom : sr.is_comics_publication
      · rw [if_pos hcom]
        simp only [hcom, Bool.and_true]
        cases rip with
        | none =>
          dsimp only
          rw [h0]
          simp
        | some p0 =>
          dsimp only
          by_cases hqq : q = p0
          · subst hqq
            rw [bump_eq, h0, beq_self_eq_true]
            simp
          · rw [bump_ne _ _ _ _ hqq, h0]
            have hne : ((some p0 : Option Nat) == some q) = false := by
              simp only [beq_eq_false_iff_ne, ne_eq, Option.some.injEq]
              exact fun hc => hqq hc.symm
            rw [hne]
            simp
      · have hcf : sr.is_comics_publication = false := by simpa using hcom
        rw [if_neg hcom, h0]
        simp only [hcf, Bool.and_false]
        simp

theorem issue_commit_delete_preserves {db db' : DB} {iid : Nat}
    (hwf : db_wf db) (hok : counts_ok db)
    (h : issue_commit_delete db iid = some db') :
    db_wf db' ∧ counts_ok db' := by
  obtain ⟨hw1, hw2, hw3⟩ := hwf
  obtain ⟨hok1, hok2, hok3, hok4, hok5, hok6⟩ := hok
  unfold issue_commit_delete at h
  split at h
  · exact absurd h (by simp)
  rename_i i hi
  split at h
  · exact absurd h (by simp)
  rename_i sr hsr
  split at h
  case isFalse => exact absurd h (by simp)
  rename_i hval
  injection h with h
  subst h
  have hiid : i.id = iid := by
    have := List.find?_some hi
    simpa using this
  have himem : i ∈ db.issues := List.mem_of_find?_eq_some hi
  refine ⟨⟨?_, ?_, ?_⟩, ?_, ?_, ?_, ?_, ?_, ?_⟩ <;> dsimp only
  -- wf: pairwise
  · exact hw1.sublist (List.filter_sublist db.issues)
  -- wf: referential integrity
  · intro j hj
    exact hw2 j (List.mem_of_mem_filter hj)
  -- wf: brand groups nodup
  · exact hw3
  -- counts: series_issue_count
  · intro s hs
    have h0 := hok1 s hs
    have he := cnt_filter_ne IssueRec.id (issue_in_series s.id) db.issues hw1 i himem
    rw [← hiid]
    by_cases hv : i.variant_of.isSome
    · rw [if_pos hv, h0]
      have hin : i.variant_of.isNone = false := by
        cases hvv : i.variant_of <;> simp_all
      have hpi : issue_in_series s.id i = false := by
        simp [issue_in_series, hin]
      rw [hpi] at he
      simp only [Bool.false_eq_true, if_false, Nat.add_zero] at he
      rw [he]
    · have hvn : i.variant_of = none := Option.not_isSome_iff_eq_none.mp hv
      have hvf : i.variant_of.isSome = false := by simp [hvn]
      simp only [hvf, Bool.false_eq_true, if_false]
      have hpi : issue_in_series s.id i = (i.series == s.id) := by
        simp [issue_in_series, hvn]
      rw [hpi] at he
      by_cases hss : s.id = i.series
      · rw [hss] at h0 he ⊢
        rw [bump_eq, h0]
        rw [beq_self_eq_true] at he
        simp only [if_true] at he
        omega
      · rw [bump_ne _ _ _ _ hss, h0]
        rw [beq_eq_false_iff_ne.mpr (fun hc => hss hc.symm)] at he
        simp only [Bool.false_eq_true, if_false, Nat.add_zero] at he
        omega
  -- counts: publisher_series_count
  · intro p hp
    exact hok2 p hp
  -- counts: publisher_issue_count
  · intro p hp
    have h0 := hok3 p hp
    have he := cnt_filter_ne IssueRec.id (issue_for_publisher db.series p)
      db.issues hw1 i himem
    rw [← hiid]
    have hfp : issue_for_publisher db.series p i =
        (i.variant_of.isNone && (sr.publisher == p && sr.is_comics_publication)) := by
      simp only [issue_for_publisher]
      rw [hsr]
    by_cases hv : i.variant_of.isSome
    · have hin : i.variant_of.isNone = false := by
        cases hvv : i.variant_of <;> simp_all
      simp only [hv, Bool.not_true, Bool.false_and, Bool.false_eq_true, if_false]
      rw [h0]
      rw [hfp] at he
      simp only [hin, Bool.false_and, Bool.false_eq_true, if_false,
        Nat.add_zero] at he
      rw [he]
    · have hvn : i.variant_of = none := Option.not_isSome_iff_eq_none.mp hv
      have hvf : i.variant_of.isSome = false := by simp [hvn]
      have hin : i.variant_of.isNone = true := by simp [hvn]
      simp only [hvf, Bool.not_false, Bool.true_and]
      rw [hfp] at he
      simp only [hin, Bool.true_and] at he
      by_cases hcom : sr.is_comics_publication
      · rw [if_pos hcom]
        simp only [hcom, Bool.and_true] at he
        by_cases hpp : p = sr.publisher
        · rw [hpp] at h0 he ⊢
          rw [bump_eq, h0]
          simp only [beq_self_eq_true] at he
          simp at he
          omega
        · rw [bump_ne _ _ _ _ hpp, h0]
          rw [beq_eq_false_iff_ne.mpr (fun hc => hpp hc.symm)] at he
          simp only [Bool.false_eq_true, if_false, Nat.add_zero] at he
          omega
      · have hcf : sr.is_comics_publication = false := by simpa using hcom
        rw [if_neg hcom, h0]
        simp only [hcf, Bool.and_false, Bool.false_eq_true, if_false,
          Nat.add_zero] at he
        omega
  -- counts: brand_issue_count
  · intro b hb
    have h0 := hok4 b hb
    have he := cnt_filter_ne IssueRec.id (issue_for_brand db.series b.id)
      db.issues hw1 i himem
    rw [← hiid]
    have hsc : series_comics db.series i = sr.is_comics_publication := by
      simp only [series_comics]
      rw [hsr]
    have hfp : issue_for_brand db.series b.id i =
        (i.variant_of.isNone && (i.brand == some b.id) && sr.is_comics_publication) := by
      simp only [issue_for_brand, hsc]
    by_cases hv : i.variant_of.isSome
    · have hin : i.variant_of.isNone = false := by
        cases hvv : i.variant_of <;> simp_all
      simp only [hv, Bool.not_true, Bool.false_and, Bool.false_eq_true, if_false]
      rw [h0]
      rw [hfp] at he
      simp only [hin, Bool.false_and, Bool.false_eq_true, if_false,
        Nat.add_zero] at he
      rw [he]
    · have hvn : i.variant_of = none := Option.not_isSome_iff_eq_none.mp hv
      have hvf : i.variant_of.isSome = false := by simp [hvn]
      have hin : i.variant_of.isNone = true := by simp [hvn]
      simp only [hvf, Bool.not_false, Bool.true_and]
      rw [hfp] at he
      simp only [hin, Bool.true_and] at he
      by_cases hcom : sr.is_comics_publication
      · rw [if_pos hcom]
        simp only [hcom, Bool.and_true] at he
        cases hib : i.brand with
        | none =>
          dsimp only
          rw [h0]
          rw [hib] at he
          simp only [Option.none_beq_some, Bool.false_eq_true, if_false,
            Nat.add_zero] at he
          omega
        | some b0 =>
          dsimp only
          rw [hib] at he
          by_cases hbb : b.id = b0
          · rw [hbb] at h0 he ⊢
            rw [bump_eq, h0]
            simp only [beq_self_eq_true] at he
            simp at he
            omega
          · rw [bump_ne _ _ _ _ hbb, h0]
            have hne : ((some b0 : Option Nat) == some b.id) = false := by
              simp only [beq_eq_false_iff_ne, ne_eq, Option.some.injEq]
              exact fun hc => hbb hc.symm
            rw [hne] at he
            simp only [Bool.false_eq_true, if_false, Nat.add_zero] at he
            omega
      · have hcf : sr.is_comics_publication = false := by simpa using hcom
        rw [if_neg hcom, h0]
        simp only [hcf, Bool.and_false, Bool.false_eq_true, if_false,
          Nat.add_zero] at he
        omega
  -- counts: brand_group_issue_count
  · intro g hg
    have h0 := hok5 g hg
    have he := cnt_filter_ne IssueRec.id (issue_for_brand_group db.series db.brands g)
      db.issues hw1 i himem
    rw [← hiid]
    have hsc : series_comics db.series i = sr.is_comics_publication := by
      simp only [series_comics]
      rw [hsr]
    by_cases hv : i.variant_of.isSome
    · have hin : i.variant_of.isNone = false := by
        cases hvv : i.variant_of <;> simp_all
      simp only [hv, Bool.not_true, Bool.false_and, Bool.false_eq_true, if_false]
      rw [h0]
      have hpi : issue_for_brand_group db.series db.brands g i = false := by
        simp [issue_for_brand_group, hin]
      rw [hpi] at he
      simp only [Bool.false_eq_true, if_false, Nat.add_zero] at he
      rw [he]
    · have hvn : i.variant_of = none := Option.not_isSome_iff_eq_none.mp hv
      have hvf : i.variant_of.isSome = false := by simp [hvn]
      have hin : i.variant_of.isNone = true := by simp [hvn]
      simp only [hvf, Bool.not_false, Bool.true_and]
      by_cases hcom : sr.is_comics_publication
      · rw [if_pos hcom]
        have hnodup : (brand_groups_of db i.brand).Nodup := by
          cases hib : i.brand with
          | none => simp [brand_groups_of]
          | some b0 => exact hib ▸ (hval b0 hib).2
        rw [bump_many_eq (-1) (brand_groups_of db i.brand)
          db.brand_group_issue_count g hnodup]
        cases hib : i.brand with
        | none =>
          have hpi : issue_for_brand_group db.series db.brands g i = false := by
            simp [issue_for_brand_group, hib]
          rw [hpi] at he
          simp only [Bool.false_eq_true, if_false, Nat.add_zero] at he
          rw [show brand_groups_of db none = [] from rfl,
            if_neg (List.not_mem_nil g), h0, he]
        | some b0 =>
          obtain ⟨br, hbr⟩ := Option.isSome_iff_exists.mp (hval b0 hib).1
          have hgroups : brand_groups_of db (some b0) = br.group := by
            simp only [brand_groups_of]
            rw [hbr]
          have hpi : issue_for_brand_group db.series db.brands g i =
              br.group.contains g := by
            simp only [issue_for_brand_group, hsc, hcom, hin, hib]
            rw [hbr]
            simp
          rw [hpi] at he
          rw [hgroups]
          by_cases hmem : g ∈ br.group
          · have hcontains : br.group.contains g = true :=
              List.elem_eq_true_of_mem hmem
            rw [hcontains] at he
            simp only [if_true] at he
            rw [if_pos hmem, h0]
            omega
          · have hcontains : br.group.contains g = false := by
              rcases hc : br.group.contains g with _ | _
              · rfl
              · exact absurd (List.mem_of_elem_eq_true hc) hmem
            rw [hcontains] at he
            simp only [Bool.false_eq_true, if_false, Nat.add_zero] at he
            rw [if_neg hmem, h0]
            omega
      · have hcf : sr.is_comics_publication = false := by simpa using hcom
        rw [if_neg hcom, h0]
        have hpi : issue_for_brand_group db.series db.brands g i = false := by
          simp [issue_for_brand_group, hsc, hcf]
        rw [hpi] at he
        simp only [Bool.false_eq_true, if_false, Nat.add_zero] at he
        omega
  -- counts: indicia_publisher_issue_count
  · intro q hq
    have h0 := hok6 q hq
    have he := cnt_filter_ne IssueRec.id (issue_for_indicia_publisher db.series q)
      db.issues hw1 i himem
    rw [← hiid]
    have hsc : series_comics db.series i = sr.is_comics_publication := by
      simp only [series_comics]
      rw [hsr]
    have hfp : issue_for_indicia_publisher db.series q i =
        (i.variant_of.isNone && (i.indicia_publisher == some q) &&
          sr.is_comics_publication) := by
      simp only [issue_for_indicia_publisher, hsc]
    by_cases hv : i.variant_of.isSome
    · have hin : i.variant_of.isNone = false := by
        cases hvv : i.variant_of <;> simp_all
      simp only [hv, Bool.not_true, Bool.false_and, Bool.false_eq_true, if_false]
      rw [h0]
      rw [hfp] at he
      simp only [hin, Bool.false_and, Bool.false_eq_true, if_false,
        Nat.add_zero] at he
      rw [he]
    · have hvn : i.variant_of = none := Option.not_isSome_iff_eq_none.mp hv
      have hvf : i.variant_of.isSome = false := by simp [hvn]
      have hin : i.variant_of.isNone = true := by simp [hvn]
      simp only [hvf, Bool.not_false, Bool.true_and]
      rw [hfp] at he
      simp only [hin, Bool.true_and] at he
      by_cases hcom : sr.is_comics_publication
      · rw [if_pos hcom]
        simp only [hcom, Bool.and_true] at he
        cases hip : i.indicia_publisher with
        | none =>
          dsimp only
          rw [h0]
          rw [hip] at he
          simp only [Option.none_beq_some, Bool.false_eq_true, if_false,
            Nat.add_zero] at he
          omega
        | some p0 =>
          dsimp only
          rw [hip] at he
          by_cases hqq : q = p0
          · rw [hqq] at h0 he ⊢
            rw [bump_eq, h0]
            simp only [beq_self_eq_true] at he
            simp at he
            omega
          · rw [bump_ne _ _ _ _ hqq, h0]
            have hne : ((some p0 : Option Nat) == some q) = false := by
              simp only [beq_eq_false_iff_ne, ne_eq, Option.some.injEq]
              exact fun hc => hqq hc.symm
            rw [hne] at he
            simp only [Bool.false_eq_true, if_false, Nat.add_zero] at he
            omega
      · have hcf : sr.is_comics_publication = false := by simpa using hcom
        rw [if_neg hcom, h0]
        simp only [hcf, Bool.and_false, Bool.false_eq_true, if_false,
          Nat.add_zero] at he
        omega

theorem cnt_eq_zero {α : Type} (p : α → Bool) :
    ∀ l : List α, (∀ x ∈ l, p x = false) → cnt p l = 0
  | [], _ => rfl
  | a :: l, h => by
    have := cnt_eq_zero p l (fun x hx => h x (by simp [hx]))
    simp [cnt_cons, h a (by simp), this]

theorem series_commit_add_preserves {db db' : DB} {sid pid country language : Nat}
    {comics : Bool} (hwf : db_wf db) (hok : counts_ok db)
    (h : series_commit_add db sid pid country language comics = some db') :
    db_wf db' ∧ counts_ok db' := by
  obtain ⟨hw1, hw2, hw3⟩ := hwf
  obtain ⟨hok1, hok2, hok3, hok4, hok5, hok6⟩ := hok
  unfold series_commit_add at h
  split at h
  case isFalse => exact absurd h (by simp)
  rename_i hval
  injection h with h
  subst h
  -- lookups of existing series are unaffected by appending the new row
  have hfind : ∀ t : Nat, (∃ s ∈ db.series, s.id = t) →
      (db.series ++
        [{ id := sid, publisher := pid, country := country, language := language
           is_comics_publication := comics,
           is_singleton := false : SeriesRec }]).find? (fun s => s.id == t) =
      db.series.find? (fun s => s.id == t) := by
    rintro t ⟨s, hs, hst⟩
    exact find?_append_of_isSome _ _ _
      (find?_isSome_of_mem _ db.series s hs (by simp [hst]))
  have hsc : ∀ i ∈ db.issues, series_comics (db.series ++
      [{ id := sid, publisher := pid, country := country, language := language
         is_comics_publication := comics, is_singleton := false : SeriesRec }]) i =
      series_comics db.series i := by
    intro i hi
    simp only [series_comics]
    rw [hfind i.series (hw2 i hi)]
  refine ⟨⟨?_, ?_, ?_⟩, ?_, ?_, ?_, ?_, ?_, ?_⟩ <;> dsimp only
  -- wf: pairwise
  · exact hw1
  -- wf: referential integrity
  · intro j hj
    obtain ⟨s, hs, hst⟩ := hw2 j hj
    exact ⟨s, List.mem_append.mpr (Or.inl hs), hst⟩
  -- wf: brand groups nodup
  · exact hw3
  -- counts: series_issue_count
  · intro s hs
    rcases List.mem_append.mp hs with hs | hs
    · have hne : s.id ≠ sid := hval.1 s hs
      rw [if_neg hne]
      exact hok1 s hs
    · simp only [List.mem_singleton] at hs
      subst hs
      rw [if_pos rfl]
      have : cnt (issue_in_series sid) db.issues = 0 := by
        refine cnt_eq_zero _ db.issues (fun i hi => ?_)
        obtain ⟨s', hs', hst⟩ := hw2 i hi
        have : i.series ≠ sid := hst ▸ hval.1 s' hs'
        simp [issue_in_series, this]
      rw [this]
      simp
  -- counts: publisher_series_count
  · intro p hp
    rw [cnt_append, cnt_singleton]
    have h0 := hok2 p hp
    have hpred : series_for_publisher p
        { id := sid, publisher := pid, country := country, language := language
          is_comics_publication := comics, is_singleton := false } =
        (pid == p && comics) := by
      simp [series_for_publisher]
    rw [hpred]
    cases comics with
    | false =>
      rw [if_neg (by simp), h0]
      simp
    | true =>
      rw [if_pos rfl]
      simp only [Bool.and_true]
      by_cases hpp : p = pid
      · subst hpp
        rw [bump_eq, h0, beq_self_eq_true]
        simp
      · rw [bump_ne _ _ _ _ hpp, h0,
          beq_eq_false_iff_ne.mpr (fun hc => hpp hc.symm)]
        simp
  -- counts: publisher_issue_count
  · intro p hp
    have h0 := hok3 p hp
    have hcnt : cnt (issue_for_publisher (db.series ++
        [{ id := sid, publisher := pid, country := country, language := language
           is_comics_publication := comics, is_singleton := false }]) p) db.issues =
        cnt (issue_for_publisher db.series p) db.issues := by
      refine cnt_congr _ _ db.issues (fun i hi => ?_)
      simp only [issue_for_publisher]
      rw [hfind i.series (hw2 i hi)]
    rw [hcnt]
    exact h0
  -- counts: brand_issue_count
  · intro b hb
    have h0 := hok4 b hb
    have hcnt : cnt (issue_for_brand (db.series ++
        [{ id := sid, publisher := pid, country := country, language := language
           is_comics_publication := comics, is_singleton := false }]) b.id) db.issues =
        cnt (issue_for_brand db.series b.id) db.issues := by
      refine cnt_congr _ _ db.issues (fun i hi => ?_)
      simp only [issue_for_brand]
      rw [hsc i hi]
    rw [hcnt]
    exact h0
  -- counts: brand_group_issue_count
  · intro g hg
    have h0 := hok5 g hg
    have hcnt : cnt (issue_for_brand_group (db.series ++
        [{ id := sid, publisher := pid, country := country, language := language
           is_comics_publication := comics, is_singleton := false }]) db.brands g)
        db.issues =
        cnt (issue_for_brand_group db.series db.brands g) db.issues := by
      refine cnt_congr _ _ db.issues (fun i hi => ?_)
      simp only [issue_for_brand_group]
      rw [hsc i hi]
    rw [hcnt]
    exact h0
  -- counts: indicia_publisher_issue_count
  · intro q hq
    have h0 := hok6 q hq
    have hcnt : cnt (issue_for_indicia_publisher (db.series ++
        [{ id := sid, publisher := pid, country := country, language := language
           is_comics_publication := comics, is_singleton := false }]) q) db.issues =
        cnt (issue_for_indicia_publisher db.series q) db.issues := by
      refine cnt_congr _ _ db.issues (fun i hi => ?_)
      simp only [issue_for_indicia_publisher]
      rw [hsc i hi]
    rw [hcnt]
    exact h0

/-! ## Steps preservation and claims C1 / C3 -/

theorem step_preserves {db db' : DB} {op : Op} (hwf : db_wf db)
    (hok : counts_ok db) (h : step db op = some db') :
    db_wf db' ∧ counts_ok db' := by
  cases op with
  | seriesAdd sid pid country language comics =>
    exact series_commit_add_preserves hwf hok h
  | issueAdd iid s a v b ip num sc =>
    exact issue_commit_add_preserves hwf hok h
  | issueDelete iid =>
    exact issue_commit_delete_preserves hwf hok h

theorem steps_preserve : ∀ (ops : List Op) (db db' : DB), db_wf db →
    counts_ok db → steps db ops = some db' → db_wf db' ∧ counts_ok db'
  | [], db, db', hwf, hok, h => by
    simp only [steps] at h
    injection h with h
    subst h
    exact ⟨hwf, hok⟩
  | op :: ops, db, db', hwf, hok, h => by
    simp only [steps] at h
    cases hs : step db op with
    | none =>
      rw [hs] at h
      exact absurd h (by simp)
    | some db1 =>
      rw [hs] at h
      simp only [Option.some_bind] at h
      obtain ⟨hwf1, hok1⟩ := step_preserves hwf hok hs
      exact steps_preserve ops db1 db' hwf1 hok1 h

/-- Claim C1 (amended): the claim as stated — after every
`commit_to_display`, every cached counter equals the number of ALL
active children — fails on the code (counterexample, first part: a
committed variant-issue add creates an active child issue of the series
without touching `Series.issue_count`, lines 1653-1657).  Even counting
only QUALIFYING children, the invariant survives only the add/delete
commit kinds: a cross-series issue edit skips the publisher adjustment
whenever the two series share a publisher, even when only one of them is
a comics publication (the guard at line 1756 compares publishers alone;
counterexample, second part), and the series-delete path leaves
`publisher.issue_count` unadjusted by its own TODO (lines 1166-1168).
Amended to what the code maintains and this theorem proves: after any
sequence of series-add, issue-add and issue-delete commits, every cached
counter equals the number of its QUALIFYING active children: non-variant
issues for `Series.issue_count`; comics-publication series for
`Publisher.series_count`; non-variant issues of comics-publication
series for the `Publisher`/`Brand`/`BrandGroup`/`IndiciaPublisher` issue
counters. -/
theorem C1_cached_counters (db db' : DB) (ops : List Op)
    (hwf : db_wf db) (hok : counts_ok db) (h : steps db ops = some db') :
    counts_ok db' :=
  (steps_preserve ops db db' hwf hok h).2

/-- Witness for C1 at a concrete sequence: add a series, add two issues,
delete one. -/
theorem C1_cached_counters_witness :
    counts_ok ((steps empty_db sample_ops).getD empty_db) :=
  C1_cached_counters empty_db ((steps empty_db sample_ops).getD empty_db)
    sample_ops (by decide) (by decide) rfl

/-- Counterexample for C1, in two parts.  First, the claim as stated: in
a database satisfying the literal invariant (counters equal the number
of ALL active children), committing a variant-issue add
(`IssueRevision.commit_to_display`, lines 1653-1657: a variant add
touches no `issue_count`) yields a state where series 10 has two active
child issues but `issue_count` 1.  Second, the qualifying-children
invariant itself is not preserved by every `commit_to_display`: from a
database satisfying it, committing an issue edit that moves non-variant
issue 50 from comics series 10 to NON-comics series 11 of the same
publisher leaves `publisher_issue_count 1` at 1 (the branch at line 1756
runs only when the publishers differ) while the publisher's qualifying
children drop to none — so the amendment is restricted to the
series-add / issue-add / issue-delete commit kinds. -/
theorem C1_counterexample :
    (counts_ok_literal example_db ∧ db_wf example_db ∧
      (step example_db
        (Op.issueAdd 100 10 none (some 50) none none "1 var" 1)).isSome ∧
      ¬ counts_ok_literal ((step example_db
        (Op.issueAdd 100 10 none (some 50) none none "1 var" 1)).getD example_db)) ∧
    (counts_ok move_db ∧ db_wf move_db ∧
      (issue_commit_edit move_db 50 11 none none none "1").isSome ∧
      ¬ counts_ok
        ((issue_commit_edit move_db 50 11 none none none "1").getD move_db)) := by
  decide

/-- Claim C3 (amended): committing an added `IssueRevision` with
`after=None`, no variant, into comics-publication series 10 with
`issue_count` 0 creates the issue row with `sort_code` 0, makes the
series' `issue_count` 1 and increments the publisher's `issue_count` by
1; but the global per-(country, language) statistics bucket "issues" is
left UNCHANGED, because `update_count` is a no-op stub in this snapshot
(the call at lines 1676-1677 is made with +1 but has no effect). -/
theorem C3_issue_add_scenario :
    (step scenario_db scenario_add).isSome ∧
    ((step scenario_db scenario_add).getD scenario_db).issues =
      [{ id := 100, series := 10, variant_of := none, brand := none
         indicia_publisher := none, sort_code := 0, number := "1" }] ∧
    ((step scenario_db scenario_add).getD scenario_db).series_issue_count 10 = 1 ∧
    ((step scenario_db scenario_add).getD scenario_db).publisher_issue_count 1 =
      scenario_db.publisher_issue_count 1 + 1 ∧
    ((step scenario_db scenario_add).getD scenario_db).stats
        { category := "issues", country := 1, language := 1 } =
      scenario_db.stats { category := "issues", country := 1, language := 1 } := by
  refine ⟨by decide, by decide, by decide, by decide, rfl⟩

/-- Counterexample for C3 as stated: the scenario's final expectation —
the global (country 1, language 1) "issues" bucket incremented by 1 —
fails: `update_count` (lines 29-32) is a dummy, so the bucket is
unchanged. -/
theorem C3_counterexample :
    (step scenario_db scenario_add).isSome ∧
    ¬ (((step scenario_db scenario_add).getD scenario_db).stats
        { category := "issues", country := 1, language := 1 } =
      scenario_db.stats { category := "issues", country := 1, language := 1 } + 1) := by
  refine ⟨by decide, by decide⟩

/-! ## Claim C10: update_count is a no-op, so commits leave the global
statistics store unchanged -/

/-- Claim C10: `update_count` (lines 29-32) accepts any arguments and
performs no state change; consequently every embedded
`commit_to_display` — series add (plain or with the singleton side
effect), series edit, issue add, issue delete, and the publisher
add/edit/delete commit — leaves the global per-(country, language)
statistics store unchanged, even at the call sites where the spec says
buckets such as 'issues' or 'series' are adjusted.
(`ReprintRevision.commit_to_display` and the story/cover commits are
outside the embedded operation set; the reprint commit contains no
`update_count` call at all.) -/
theorem C10_stats_frame :
    (∀ (c : String) (d : Int) (co l : Nat) (s : Stats),
      update_count c d co l s = s) ∧
    (∀ (db : DB) (op : Op) (db' : DB), step db op = some db' →
      db'.stats = db.stats) ∧
    (∀ (rev : PublisherRevision) (pub? : Option Publisher) (fid : Nat)
      (s : Stats) (c : Bool),
      (publisher_commit_to_display rev pub? fid s c).2.2 = s) ∧
    (∀ (db : DB) (sid pid co l : Nat) (ic sing : Bool) (iid : Nat) (db' : DB),
      series_commit_add_full db sid pid co l ic sing iid = some db' →
      db'.stats = db.stats) ∧
    (∀ (db : DB) (sid rp rc rl : Nat) (ric rsing : Bool) (db' : DB),
      series_commit_edit db sid rp rc rl ric rsing = some db' →
      db'.stats = db.stats) := by
  refine ⟨fun _ _ _ _ _ => rfl, ?_, ?_, ?_, ?_⟩
  · intro db op db' h
    cases op with
    | seriesAdd sid pid country language comics =>
      simp only [step] at h
      unfold series_commit_add at h
      split at h
      case isFalse => exact absurd h (by simp)
      injection h with h
      subst h
      dsimp only
      split <;> rfl
    | issueAdd iid s a v b ip num sc =>
      simp only [step] at h
      unfold issue_commit_add at h
      split at h
      · exact absurd h (by simp)
      split at h
      · exact absurd h (by simp)
      split at h
      case isFalse => exact absurd h (by simp)
      injection h with h
      subst h
      dsimp only
      split <;> split <;> rfl
    | issueDelete iid =>
      simp only [step] at h
      unfold issue_commit_delete at h
      split at h
      · exact absurd h (by simp)
      split at h
      · exact absurd h (by simp)
      split at h
      case isFalse => exact absurd h (by simp)
      injection h with h
      subst h
      dsimp only
      split <;> split <;> rfl
  · intro rev pub? fid s c
    cases pub? with
    | none => rfl
    | some pub =>
      simp only [publisher_commit_to_display]
      split <;> rfl
  · intro db sid pid co l ic sing iid db' h
    simp only [series_commit_add_full] at h
    split at h
    case isFalse => exact absurd h (by simp)
    split at h <;> (injection h with h; subst h) <;>
      dsimp only [update_count, save_pub] <;> split_ifs <;> rfl
  · intro db sid rp rc rl ric rsing db' h
    simp only [series_commit_edit] at h
    split at h
    · exact absurd h (by simp)
    injection h with h
    subst h
    dsimp only [update_count]
    split_ifs <;> rfl

/-- Witness for C10 at concrete inputs. -/
theorem C10_stats_frame_witness :
    update_count "issues" 1 1 1 (fun _ => 0) = (fun _ => 0) ∧
    ((step scenario_db scenario_add).getD scenario_db).stats =
      scenario_db.stats ∧
    (publisher_commit_to_display (publisher_do_create_revision
        { id := 7, name := [], year_began := none, year_ended := none
          year_began_uncertain := false, year_ended_uncertain := false
          url := [], notes := [], keywords := [], country := 3
          is_master := true, parent := none, imprint_count := 0
          series_count := 0, issue_count := 0, reserved := false })
      none 9 (fun _ => 0) true).2.2 = (fun _ => 0) ∧
    ((series_commit_add_full scenario_db 20 1 1 1 true true 100).getD
      scenario_db).stats = scenario_db.stats ∧
    ((series_commit_edit scenario_db 10 1 1 1 true true).getD
      scenario_db).stats = scenario_db.stats :=
  ⟨C10_stats_frame.1 "issues" 1 1 1 (fun _ => 0),
   C10_stats_frame.2.1 scenario_db scenario_add
     ((step scenario_db scenario_add).getD scenario_db) rfl,
   C10_stats_frame.2.2.1 _ none 9 (fun _ => 0) true,
   C10_stats_frame.2.2.2.1 scenario_db 20 1 1 1 true true 100
     ((series_commit_add_full scenario_db 20 1 1 1 true true 100).getD
       scenario_db) rfl,
   C10_stats_frame.2.2.2.2 scenario_db 10 1 1 1 true true
     ((series_commit_edit scenario_db 10 1 1 1 true true).getD scenario_db) rfl⟩

/-! ## Claim C4: conditional field copy -/

/-- Claim C4: whenever `IssueRevision.commit_to_display` assigns fields
(lines 1803-1877), for each field group governed by a series flag
(`has_issue_title`, `has_volume`, `has_indicia_frequency`, `has_isbn`,
`has_barcode`, `has_rating`): when the flag is `False` the display issue
keeps its existing values and the revision's own copies are overwritten
with the display object's values and persisted; when the flag is `True`
the revision's values are copied onto the issue (and the revision keeps
its own).  Equivalently, each governed field ends up equal on the issue
and the revision, with the value selected by the flag; `valid_isbn` is
recomputed from the revision's ISBN only when `has_isbn` is set. -/
theorem C4_conditional_fields (validated_isbn : String → String)
    (osd : IssueRevFields → String) (flags : SeriesFlags) (clear : Bool)
    (issue : IssueDisplay) (rev : IssueRevFields) :
    ((issue_assign_fields validated_isbn osd flags clear issue rev).1.title =
      (if flags.has_issue_title then rev.title else issue.title)) ∧
    ((issue_assign_fields validated_isbn osd flags clear issue rev).2.title =
      (if flags.has_issue_title then rev.title else issue.title)) ∧
    ((issue_assign_fields validated_isbn osd flags clear issue rev).1.no_title =
      (if flags.has_issue_title then rev.no_title else issue.no_title)) ∧
    ((issue_assign_fields validated_isbn osd flags clear issue rev).2.no_title =
      (if flags.has_issue_title then rev.no_title else issue.no_title)) ∧
    ((issue_assign_fields validated_isbn osd flags clear issue rev).1.volume =
      (if flags.has_volume then rev.volume else issue.volume)) ∧
    ((issue_assign_fields validated_isbn osd flags clear issue rev).2.volume =
      (if flags.has_volume then rev.volume else issue.volume)) ∧
    ((issue_assign_fields validated_isbn osd flags clear issue rev).1.no_volume =
      (if flags.has_volume then rev.no_volume else issue.no_volume)) ∧
    ((issue_assign_fields validated_isbn osd flags clear issue rev).2.no_volume =
      (if flags.has_volume then rev.no_volume else issue.no_volume)) ∧
    ((issue_assign_fields validated_isbn osd flags clear issue
        rev).1.display_volume_with_number =
      (if flags.has_volume then rev.display_volume_with_number
       else issue.display_volume_with_number)) ∧
    ((issue_assign_fields validated_isbn osd flags clear issue
        rev).2.display_volume_with_number =
      (if flags.has_volume then rev.display_volume_with_number
       else issue.display_volume_with_number)) ∧
    ((issue_assign_fields validated_isbn osd flags clear issue
        rev).1.indicia_frequency =
      (if flags.has_indicia_frequency then rev.indicia_frequency
       else issue.indicia_frequency)) ∧
    ((issue_assign_fields validated_isbn osd flags clear issue
        rev).2.indicia_frequency =
      (if flags.has_indicia_frequency then rev.indicia_frequency
       else issue.indicia_frequency)) ∧
    ((issue_assign_fields validated_isbn osd flags clear issue
        rev).1.no_indicia_frequency =
      (if flags.has_indicia_frequency then rev.no_indicia_frequency
       else issue.no_indicia_frequency)) ∧
    ((issue_assign_fields validated_isbn osd flags clear issue
        rev).2.no_indicia_frequency =
      (if flags.has_indicia_frequency then rev.no_indicia_frequency
       else issue.no_indicia_frequency)) ∧
    ((issue_assign_fields validated_isbn osd flags clear issue rev).1.isbn =
      (if flags.has_isbn then rev.isbn else issue.isbn)) ∧
    ((issue_assign_fields validated_isbn osd flags clear issue rev).2.isbn =
      (if flags.has_isbn then rev.isbn else issue.isbn)) ∧
    ((issue_assign_fields validated_isbn osd flags clear issue rev).1.no_isbn =
      (if flags.has_isbn then rev.no_isbn else issue.no_isbn)) ∧
    ((issue_assign_fields validated_isbn osd flags clear issue rev).2.no_isbn =
      (if flags.has_isbn then rev.no_isbn else issue.no_isbn)) ∧
    ((issue_assign_fields validated_isbn osd flags clear issue rev).1.valid_isbn =
      (if flags.has_isbn then validated_isbn rev.isbn else issue.valid_isbn)) ∧
    ((issue_assign_fields validated_isbn osd flags clear issue rev).1.barcode =
      (if flags.has_barcode then rev.barcode else issue.barcode)) ∧
    ((issue_assign_fields validated_isbn osd flags clear issue rev).2.barcode =
      (if flags.has_barcode then rev.barcode else issue.barcode)) ∧
    ((issue_assign_fields validated_isbn osd flags clear issue rev).1.no_barcode =
      (if flags.has_barcode then rev.no_barcode else issue.no_barcode)) ∧
    ((issue_assign_fields validated_isbn osd flags clear issue rev).2.no_barcode =
      (if flags.has_barcode then rev.no_barcode else issue.no_barcode)) ∧
    ((issue_assign_fields validated_isbn osd flags clear issue rev).1.rating =
      (if flags.has_rating then rev.rating else issue.rating)) ∧
    ((issue_assign_fields validated_isbn osd flags clear issue rev).2.rating =
      (if flags.has_rating then rev.rating else issue.rating)) ∧
    ((issue_assign_fields validated_isbn osd flags clear issue rev).1.no_rating =
      (if flags.has_rating then rev.no_rating else issue.no_rating)) ∧
    ((issue_assign_fields validated_isbn osd flags clear issue rev).2.no_rating =
      (if flags.has_rating then rev.no_rating else issue.no_rating)) := by
  by_cases h1 : flags.has_issue_title <;>
    by_cases h2 : flags.has_volume <;>
    by_cases h3 : flags.has_indicia_frequency <;>
    by_cases h4 : flags.has_isbn <;>
    by_cases h5 : flags.has_barcode <;>
    by_cases h6 : flags.has_rating <;>
    simp [issue_assign_fields, h1, h2, h3, h4, h5, h6]

/-! ## Claim C5: prerequisite resolution -/

theorem chain_from_id_ge : ∀ (n k : Nat), ∀ r ∈ chain_from k n, k ≤ r.id
  | 0, k, r, hr => by simp [chain_from] at hr
  | n + 1, k, r, hr => by
    simp only [chain_from, List.mem_cons] at hr
    rcases hr with rfl | hr
    · simp
    · exact Nat.le_of_succ_le (chain_from_id_ge n (k + 1) r hr)

theorem chain_from_length : ∀ n k : Nat, (chain_from k n).length = n
  | 0, _ => rfl
  | n + 1, k => by simp [chain_from, chain_from_length n (k + 1)]

theorem rev_range_append : ∀ (n k : Nat) (c : List Nat),
    rev_range k (n + 1) ++ c = rev_range (k + 1) n ++ k :: c
  | n, k, c => by simp [rev_range]

theorem mem_rev_range : ∀ (n k i : Nat), k ≤ i → i < k + n → i ∈ rev_range k n
  | 0, k, i, h1, h2 => absurd h2 (by omega)
  | n + 1, k, i, h1, h2 => by
    simp only [rev_range, List.mem_append, List.mem_singleton]
    by_cases hik : i = k
    · exact Or.inr hik
    · exact Or.inl (mem_rev_range n (k + 1) i (by omega) (by omega))

theorem resolve_chain : ∀ (n k : Nat) (committed : List Nat),
    (k = 0 ∨ (k - 1) ∈ committed) →
    resolve n (chain_from k n) committed = .ok (rev_range k n ++ committed)
  | 0, k, committed, _ => by simp [chain_from, resolve, rev_range]
  | n + 1, k, committed, hready => by
    have hhd : prereq_ready committed
        { id := k, after := if k = 0 then none else some (k - 1) } = true := by
      rcases hready with rfl | hmem
      · simp [prereq_ready]
      · by_cases hk : k = 0
        · simp [prereq_ready, hk]
        · simp only [prereq_ready, hk, if_false]
          exact List.elem_eq_true_of_mem hmem
    have hpass : resolve_pass (chain_from k (n + 1)) committed =
        some (chain_from (k + 1) n, k :: committed) := by
      simp only [resolve_pass, chain_from]
      rw [List.find?_cons_of_pos _ hhd]
      simp only [Option.some.injEq, Prod.mk.injEq]
      constructor
      · rw [List.filter_cons]
        simp only [beq_self_eq_true, Bool.not_true, Bool.false_eq_true, if_false]
        refine List.filter_eq_self.mpr (fun r hr => ?_)
        have : k + 1 ≤ r.id := chain_from_id_ge n (k + 1) r hr
        simp only [Bool.not_eq_true', beq_eq_false_iff_ne, ne_eq]
        omega
      · trivial
    show resolve (n + 1) (chain_from k (n + 1)) committed = _
    rw [show chain_from k (n + 1) =
      { id := k, after := if k = 0 then none else some (k - 1) } ::
        chain_from (k + 1) n from rfl]
    rw [show resolve (n + 1)
        ({ id := k, after := if k = 0 then none else some (k - 1) } ::
          chain_from (k + 1) n) committed =
      (match resolve_pass
          ({ id := k, after := if k = 0 then none else some (k - 1) } ::
            chain_from (k + 1) n) committed with
        | none => Except.error "prerequisite resolution did not reduce"
        | some (pending1, committed1) => resolve n pending1 committed1) from rfl]
    rw [show ({ id := k, after := if k = 0 then none else some (k - 1) } ::
        chain_from (k + 1) n) = chain_from k (n + 1) from rfl] at *
    rw [hpass]
    show resolve n (chain_from (k + 1) n) (k :: committed) = _
    rw [resolve_chain n (k + 1) (k :: committed) (Or.inr (by simp))]
    rw [rev_range_append]

theorem resolve_stuck (fuel : Nat) (pending : List PrereqRev)
    (committed : List Nat) (hne : pending ≠ [])
    (hstuck : ∀ r ∈ pending, prereq_ready committed r = false) :
    resolve fuel pending committed =
      .error "prerequisite resolution did not reduce" := by
  cases pending with
  | nil => exact absurd rfl hne
  | cons p ps =>
    cases fuel with
    | zero => rfl
    | succ fuel =>
      have hpass : resolve_pass (p :: ps) committed = none := by
        simp only [resolve_pass]
        rw [List.find?_eq_none.mpr (fun r hr => by simp [hstuck r hr])]
    -- a full pass over the pending set found nothing ready: fatal error
      show (match resolve_pass (p :: ps) committed with
        | none => Except.error "prerequisite resolution did not reduce"
        | some (pending1, committed1) => resolve fuel pending1 committed1) = _
      rw [hpass]

/-- Claim C5: when N issue revisions in one changeset are chained by
`after` prerequisites, prerequisite resolution commits all N without
error (here: the acyclic chain `0 ← 1 ← ... ← N-1` resolves to `ok` with
every revision committed), and when the `after` pointers form a cycle, a
full pass over the pending set completes without reducing it and the
fatal "did not reduce" error is raised (within the `N`-pass bound) rather
than looping forever.  Modelled from the spec (section 4.6):
`_pre_stats_measurement` / `_open_prereq_revisions` are absent from this
snapshot; only the tests reference them. -/
theorem C5_prereq_resolution (n : Nat) :
    (pre_stats_resolve (chain_revs n) = .ok (rev_range 0 n)) ∧
    (∀ i, i < n → i ∈ rev_range 0 n) ∧
    (1 ≤ n → pre_stats_resolve (cycle_revs n) =
      .error "prerequisite resolution did not reduce") := by
  refine ⟨?_, ?_, ?_⟩
  · unfold pre_stats_resolve chain_revs
    rw [chain_from_length n 0]
    rw [resolve_chain n 0 [] (Or.inl rfl)]
    simp
  · intro i hi
    exact mem_rev_range n 0 i (Nat.zero_le i) (by omega)
  · intro hn
    unfold pre_stats_resolve
    refine resolve_stuck _ (cycle_revs n) [] ?_ ?_
    · unfold cycle_revs
      intro hc
      rw [List.map_eq_nil_iff] at hc
      rw [List.range_eq_nil] at hc
      omega
    · intro r hr
      unfold cycle_revs at hr
      obtain ⟨i, _, rfl⟩ := List.mem_map.mp hr
      rfl

/-- Witness for C5 at a chain and a cycle of three revisions. -/
theorem C5_prereq_resolution_witness :
    pre_stats_resolve (chain_revs 3) = .ok (rev_range 0 3) ∧
    2 ∈ rev_range 0 3 ∧
    pre_stats_resolve (cycle_revs 3) =
      .error "prerequisite resolution did not reduce" :=
  ⟨(C5_prereq_resolution 3).1,
   (C5_prereq_resolution 3).2.1 2 (by decide),
   (C5_prereq_resolution 3).2.2 (by decide)⟩

/-! ## Claim C6: sort-code space-making is idempotent -/

/-- Claim C6: running the sort-code space-making step a second time for
the same pending insertion shifts the later issues by the insertion count
exactly once in total: a second application of `_ensure_sort_code_space`
is the identity on the already-shifted list (the idempotence guard
detects that the expected space already exists).  Modelled from the spec
(section 4.6): `_ensure_sort_code_space` is absent from this snapshot;
only the tests reference it.  Hypothesis: `later` consists of the issues
with sort code strictly greater than the insertion point, as produced by
the caller's filter. -/
theorem C6_sort_code_space_idempotent (after_code : Int) (batch : Nat)
    (later : List SortIssue)
    (hlater : ∀ i ∈ later, after_code < i.sort_code) :
    ensure_sort_code_space after_code batch
        (ensure_sort_code_space after_code batch later) =
      ensure_sort_code_space after_code batch later := by
  cases later with
  | nil => rfl
  | cons first rest =>
    unfold ensure_sort_code_space
    simp only [List.head?_cons]
    by_cases hc : after_code + (batch : Int) < first.sort_code
    · rw [if_pos hc]
      simp only [List.head?_cons]
      rw [if_pos hc]
    · rw [if_neg hc]
      simp only [List.map_cons, List.head?_cons]
      have : after_code + (batch : Int) < first.sort_code + (batch : Int) := by
        have := hlater first (by simp)
        omega
      rw [if_pos this]

/-- Witness for C6: inserting two issues after sort code 0 with later
issues at codes 1 and 2. -/
theorem C6_sort_code_space_idempotent_witness :
    ensure_sort_code_space 0 2
        (ensure_sort_code_space 0 2
          [{ id := 4, sort_code := 1 }, { id := 5, sort_code := 2 }]) =
      ensure_sort_code_space 0 2
        [{ id := 4, sort_code := 1 }, { id := 5, sort_code := 2 }] :=
  C6_sort_code_space_idempotent 0 2 _ (by decide)

/-! ## Claim C8: singleton series lifecycle -/

/-- Claim C8 (amended): committing an ADDED `SeriesRevision` with
`is_singleton=True` creates, as a side effect, a synthetic issue revision
numbered `[nn]` which is itself committed (lines 1154-1161 and
1324-1327), so the new singleton series ends up with a linked `[nn]`
issue and `issue_count` 1; the publisher's counters are incremented
exactly once each — `series_count` +1 and `issue_count` +1 — because the
publisher save carrying `F('series_count') + 1` is deferred from the
series commit to the issue revision's commit (comment at line 1150), and
the global statistics store is unchanged (`update_count` is a no-op).
As stated, the claim fails: TOGGLING `is_singleton` on an existing
series (the edit path, lines 1178-1320) only copies the flag (line 1202)
and creates or deletes no issue revision — see the counterexample. -/
theorem C8_singleton_add (db : DB) (sid pid country language iid : Nat)
    (db' : DB)
    (h : series_commit_add_full db sid pid country language true true iid =
      some db') :
    has_nn_issue db' sid = true ∧
    (db'.series.filter (fun s => s.id == sid && s.is_singleton)).length = 1 ∧
    db'.series_issue_count sid = 1 ∧
    db'.publisher_series_count pid = db.publisher_series_count pid + 1 ∧
    db'.publisher_issue_count pid = db.publisher_issue_count pid + 1 ∧
    db'.stats = db.stats := by
  simp only [series_commit_add_full] at h
  split at h
  case isFalse => exact absurd h (by simp)
  rename_i hval
  simp only [Bool.and_false, Bool.not_true, Bool.false_eq_true, if_false,
    if_true] at h
  injection h with h
  subst h
  refine ⟨?_, ?_, ?_, ?_, ?_, ?_⟩
  · simp [has_nn_issue]
  · dsimp only [save_pub]
    rw [List.filter_append]
    rw [List.filter_eq_nil_iff.mpr (fun s hs => by
      simp only [Bool.and_eq_true, beq_iff_eq, Bool.not_eq_true]
      intro hcontra
      exact absurd hcontra.1 (hval.1 s hs))]
    simp
  · dsimp only
    rw [bump_eq]
    simp
  · dsimp only [save_pub, update_count]
    rw [bump_eq]
  · dsimp only [save_pub, update_count]
    rw [bump_eq]
  · dsimp only [save_pub, update_count]

/-- Witness for C8 at a concrete add: singleton series 20 under
publisher 1. -/
theorem C8_singleton_add_witness :
    has_nn_issue ((series_commit_add_full scenario_db 20 1 1 1 true true 100).getD
      scenario_db) 20 = true ∧
    (((series_commit_add_full scenario_db 20 1 1 1 true true 100).getD
        scenario_db).series.filter
      (fun s => s.id == 20 && s.is_singleton)).length = 1 ∧
    ((series_commit_add_full scenario_db 20 1 1 1 true true 100).getD
      scenario_db).series_issue_count 20 = 1 ∧
    ((series_commit_add_full scenario_db 20 1 1 1 true true 100).getD
      scenario_db).publisher_series_count 1 =
        scenario_db.publisher_series_count 1 + 1 ∧
    ((series_commit_add_full scenario_db 20 1 1 1 true true 100).getD
      scenario_db).publisher_issue_count 1 =
        scenario_db.publisher_issue_count 1 + 1 ∧
    ((series_commit_add_full scenario_db 20 1 1 1 true true 100).getD
      scenario_db).stats = scenario_db.stats :=
  C8_singleton_add scenario_db 20 1 1 1 100
    ((series_commit_add_full scenario_db 20 1 1 1 true true 100).getD scenario_db)
    rfl

/-- Counterexample for C8 as stated: toggling `is_singleton` on an
EXISTING series (the edit path of `SeriesRevision.commit_to_display`)
sets the flag but creates no `[nn]` issue revision and no issue — the
edit path only copies the flag (line 1202); the issue-revision side
effect runs only for added series (`self.series is None`, lines
1321-1327).  Series 10 ends up marked singleton with no linked `[nn]`
issue. -/
theorem C8_counterexample :
    (series_commit_edit scenario_db 10 1 1 1 true true).isSome ∧
    (((series_commit_edit scenario_db 10 1 1 1 true true).getD
        scenario_db).series.filter
      (fun s => s.id == 10 && s.is_singleton)).length = 1 ∧
    has_nn_issue ((series_commit_edit scenario_db 10 1 1 1 true true).getD
      scenario_db) 10 = false ∧
    ((series_commit_edit scenario_db 10 1 1 1 true true).getD
      scenario_db).issues = scenario_db.issues := by
  refine ⟨by decide, by decide, by decide, by decide⟩

/-! ## Claim C9: previous_revision lookup when cloning link revisions -/

/-- Claim C9: for `SeriesBond` and `Reprint` links, cloning a revision
from an existing link (`_do_create_revision`, lines 1343-1367 and
2131-2187) sets `previous_revision` to the unique prior revision of that
link whose owning changeset is APPROVED and which has no successor
(`next_revision=None`), and signals an inconsistency error — Django's
`DoesNotExist` / `MultipleObjectsReturned` from `objects.get` — when
zero, respectively more than one, such prior revision exists. -/
theorem C9_clone_previous_revision
    (revs : List SeriesBondRevRec) (bond : SeriesBondRow) (nid : Nat)
    (st : CState) (rrevs : List ReprintRev) (kind : ReprintType)
    (row : LinkRow) (rnid : Nat) (rst : CState) :
    ((∀ p, revs.filter (series_bond_prior bond.id) = [p] →
        (series_bond_do_create_revision revs bond nid st).map
          (fun r => r.previous_revision) = .ok (some p.id)) ∧
      (revs.filter (series_bond_prior bond.id) = [] →
        series_bond_do_create_revision revs bond nid st =
          .error .doesNotExist) ∧
      (∀ p q rest, revs.filter (series_bond_prior bond.id) = p :: q :: rest →
        series_bond_do_create_revision revs bond nid st =
          .error .multipleObjectsReturned)) ∧
    ((∀ p, rrevs.filter (reprint_prior kind row.id) = [p] →
        (reprint_do_create_revision rrevs kind row rnid rst).map
          (fun r => r.previous_revision) = .ok (some p.id)) ∧
      (rrevs.filter (reprint_prior kind row.id) = [] →
        reprint_do_create_revision rrevs kind row rnid rst =
          .error .doesNotExist) ∧
      (∀ p q rest, rrevs.filter (reprint_prior kind row.id) = p :: q :: rest →
        reprint_do_create_revision rrevs kind row rnid rst =
          .error .multipleObjectsReturned)) := by
  refine ⟨⟨?_, ?_, ?_⟩, ?_, ?_, ?_⟩
  · intro p hp
    simp [series_bond_do_create_revision, objects_get, hp, Except.map]
  · intro hp
    simp [series_bond_do_create_revision, objects_get, hp, Except.map]
  · intro p q rest hp
    simp [series_bond_do_create_revision, objects_get, hp, Except.map]
  · intro p hp
    cases kind <;> simp [reprint_do_create_revision, objects_get, hp, Except.map]
  · intro hp
    cases kind <;> simp [reprint_do_create_revision, objects_get, hp, Except.map]
  · intro p q rest hp
    cases kind <;> simp [reprint_do_create_revision, objects_get, hp, Except.map]

/-- Witness for C9: one approved, successor-free prior revision for a
series bond and for a story→story reprint link. -/
theorem C9_clone_previous_revision_witness :
    (series_bond_do_create_revision
        [{ id := 1, series_bond := some 5, origin := some 2,
           origin_issue := none, target := some 3, target_issue := none,
           bond_type := some 1, notes := "", previous_revision := none,
           next_revision := none, changeset_state := CState.approved }]
        { id := 5, origin := some 2, origin_issue := none, target := some 3,
          target_issue := none, bond_type := some 1, notes := "b" }
        7 CState.opened).map (fun r => r.previous_revision) = .ok (some 1) ∧
    (reprint_do_create_revision
        [{ empty_reprint_revision 2 CState.approved with
           reprint := some 9, in_type := some ReprintType.story_to_story }]
        ReprintType.story_to_story
        { id := 9, origin := 11, target := 12, notes := "n", reserved := false }
        8 CState.opened).map (fun r => r.previous_revision) = .ok (some 2) := by
  have hthm := C9_clone_previous_revision
    [{ id := 1, series_bond := some 5, origin := some 2,
       origin_issue := none, target := some 3, target_issue := none,
       bond_type := some 1, notes := "", previous_revision := none,
       next_revision := none, changeset_state := CState.approved }]
    { id := 5, origin := some 2, origin_issue := none, target := some 3,
      target_issue := none, bond_type := some 1, notes := "b" }
    7 CState.opened
    [{ empty_reprint_revision 2 CState.approved with
       reprint := some 9, in_type := some ReprintType.story_to_story }]
    ReprintType.story_to_story
    { id := 9, origin := 11, target := 12, notes := "n", reserved := false }
    8 CState.opened
  refine ⟨?_, ?_⟩
  · exact hthm.1.1
      { id := 1, series_bond := some 5, origin := some 2,
        origin_issue := none, target := some 3, target_issue := none,
        bond_type := some 1, notes := "", previous_revision := none,
        next_revision := none, changeset_state := CState.approved }
      (by decide)
  · exact hthm.2.1
      { empty_reprint_revision 2 CState.approved with
        reprint := some 9, in_type := some ReprintType.story_to_story }
      (by decide)

/-! ## C7: reprint shape transitions -/

theorem link_table_set_same {db : ReprintDB} {t : ReprintType}
    {rows : List LinkRow} : link_table (set_link_table db t rows) t = rows := by
  cases t <;> rfl

theorem link_table_set_other {db : ReprintDB} {t t' : ReprintType}
    {rows : List LinkRow} (h : t' ≠ t) :
    link_table (set_link_table db t rows) t' = link_table db t' := by
  cases t <;> cases t' <;> first | rfl | exact absurd rfl h

theorem set_link_table_next_id {db : ReprintDB} {t : ReprintType}
    {rows : List LinkRow} :
    (set_link_table db t rows).next_link_id = db.next_link_id := by
  cases t <;> rfl

theorem link_table_with_revisions {db : ReprintDB} {revs : List ReprintRev}
    {n : Nat} {t : ReprintType} :
    link_table { db with reprint_revisions := revs, next_link_id := n } t
      = link_table db t := by
  cases t <;> rfl

theorem link_table_with_revisions_only {db : ReprintDB}
    {revs : List ReprintRev} {t : ReprintType} :
    link_table { db with reprint_revisions := revs } t = link_table db t := by
  cases t <;> rfl

theorem link_field_set_same {rev : ReprintRev} {t : ReprintType}
    {v : Option Nat} : link_field (set_link_field rev t v) t = v := by
  cases t <;> rfl

theorem link_field_set_other {rev : ReprintRev} {t t' : ReprintType}
    {v : Option Nat} (h : t' ≠ t) :
    link_field (set_link_field rev t v) t' = link_field rev t' := by
  cases t <;> cases t' <;> first | rfl | exact absurd rfl h

theorem link_field_out_type {rev : ReprintRev} {x : Option ReprintType}
    {t : ReprintType} :
    link_field { rev with out_type := x } t = link_field rev t := by
  cases t <;> rfl

theorem set_link_field_id {rev : ReprintRev} {t : ReprintType}
    {v : Option Nat} : (set_link_field rev t v).id = rev.id := by
  cases t <;> rfl

/-- C7: when a non-deleted `ReprintRevision` with inbound kind `k`
commits and `k` differs from the kind computed from its populated
origin/target fields, `commit_to_display` nulls the foreign key to the
old concrete row `lid` on every revision referencing it, deletes that
row from the `k` table, and appends a fresh row of the computed kind
carrying the resolved origin, target and notes, pointing the committed
revision at it; when the kind is unchanged, the existing row is updated
in place (origin, target, notes, reservation), no row is created or
deleted, and the other tables are untouched (models.py lines 2280-2359). -/
theorem C7_reprint_shape_transition
    (db db' : ReprintDB) (rid : Nat) (clear : Bool)
    (rev : ReprintRev) (k : ReprintType) (o tg lid : Nat)
    (hrev : db.reprint_revisions.find? (fun r => r.id == rid) = some rev)
    (hdel : rev.deleted = false)
    (hout : rev.out_type = none)
    (hor : rev.origin_revision = none)
    (htr : rev.target_revision = none)
    (hin : rev.in_type = some k)
    (hoo : out_origin rev (computed_out_type rev) = some o)
    (hot : out_target rev (computed_out_type rev) = some tg)
    (hlid : link_field rev k = some lid)
    (hcommit : reprint_commit_to_display db rid clear = some db') :
    (k ≠ computed_out_type rev →
      (∀ row ∈ link_table db' k, row.id ≠ lid) ∧
      (∀ r ∈ db'.reprint_revisions, link_field r k ≠ some lid) ∧
      link_table db' (computed_out_type rev)
        = link_table db (computed_out_type rev)
          ++ [{ id := db.next_link_id, origin := o, target := tg,
                notes := rev.notes, reserved := false }] ∧
      (∀ r ∈ db'.reprint_revisions, r.id = rid →
        link_field r (computed_out_type rev) = some db.next_link_id ∧
        r.out_type = some (computed_out_type rev))) ∧
    (k = computed_out_type rev →
      link_table db' k = (link_table db k).map (fun row =>
        if row.id == lid then
          { row with origin := o, target := tg, notes := rev.notes,
                     reserved := if clear then false else row.reserved }
        else row) ∧
      (∀ t', t' ≠ k → link_table db' t' = link_table db t') ∧
      db'.next_link_id = db.next_link_id ∧
      (∀ r ∈ db'.reprint_revisions, r.id = rid →
        r.out_type = some (computed_out_type rev))) := by
  unfold reprint_commit_to_display at hcommit
  split at hcommit
  · exact Option.noConfusion hcommit
  rename_i rev0 hfound
  rw [hrev] at hfound
  injection hfound with hfound
  subst hfound
  rw [hdel, if_neg Bool.false_ne_true] at hcommit
  simp only [hor, htr, hin, hout, hoo, hot, hlid, get_source_link,
    Option.map_some'] at hcommit
  refine ⟨fun hne => ?_, fun heq => ?_⟩
  · rw [if_pos hne] at hcommit
    injection hcommit with hdb
    subst hdb
    refine ⟨?_, ?_, ?_, ?_⟩
    · intro row hmem
      rw [link_table_with_revisions, link_table_set_other hne,
        link_table_set_same] at hmem
      simpa using List.of_mem_filter hmem
    · intro r hmem
      dsimp only at hmem
      simp only [List.mem_map] at hmem
      obtain ⟨r1, ⟨r0, hr0, hr1e⟩, hr2⟩ := hmem
      subst hr1e
      subst hr2
      by_cases hc0 : (link_field r0 k == some lid) = true
      · rw [if_pos hc0]
        by_cases hc1 : ((set_link_field r0 k none).id == rid) = true
        · rw [if_pos hc1, link_field_out_type, link_field_set_other hne,
            link_field_set_same]
          simp
        · rw [if_neg hc1, link_field_set_same]
          simp
      · rw [if_neg hc0]
        by_cases hc1 : (r0.id == rid) = true
        · rw [if_pos hc1, link_field_out_type, link_field_set_other hne,
            link_field_set_same]
          simp
        · rw [if_neg hc1]
          intro hcontra
          simp [hcontra] at hc0
    · rw [link_table_with_revisions, link_table_set_same,
        link_table_set_other (Ne.symm hne)]
    · intro r hmem hid
      dsimp only at hmem
      simp only [List.mem_map] at hmem
      obtain ⟨r1, ⟨r0, hr0, hr1e⟩, hr2⟩ := hmem
      subst hr1e
      subst hr2
      by_cases hc1 :
          ((if (link_field r0 k == some lid) = true
            then set_link_field r0 k none else r0).id == rid) = true
      · rw [if_pos hc1]
        refine ⟨?_, rfl⟩
        rw [link_field_out_type, link_field_set_same]
      · rw [if_neg hc1] at hid
        have hidd : (if (link_field r0 k == some lid) = true
            then set_link_field r0 k none else r0).id = r0.id := by
          split
          · rw [set_link_field_id]
          · rfl
        rw [hidd] at hid
        rw [hidd] at hc1
        exact absurd (by simp [hid]) hc1
  · rw [if_neg (not_not_intro heq)] at hcommit
    injection hcommit with hdb
    subst hdb
    subst heq
    refine ⟨?_, ?_, ?_, ?_⟩
    · rw [link_table_with_revisions_only, link_table_set_same]
    · intro t' ht'
      rw [link_table_with_revisions_only, link_table_set_other ht']
    · dsimp only
      exact set_link_table_next_id
    · intro r hmem hid
      dsimp only at hmem
      simp only [List.mem_map] at hmem
      obtain ⟨r0, hr0, hre⟩ := hmem
      subst hre
      by_cases hc1 : (r0.id == rid) = true
      · rw [if_pos hc1]
      · rw [if_neg hc1] at hid
        exact absurd (by simp [hid]) hc1

/-- Concrete C7 run: the story→story revision `c7_rev` retargeted at a
whole issue commits into a story→issue row, deleting old row 7,
appending new row 8, and nulling every revision's story→story key. -/
theorem C7_reprint_shape_transition_witness :
    ReprintType.story_to_story ≠ computed_out_type c7_rev ∧
    reprint_commit_to_display c7_db 1 true = some c7_db' ∧
    link_table c7_db' (computed_out_type c7_rev)
      = link_table c7_db (computed_out_type c7_rev)
        ++ [{ id := 8, origin := 20, target := 30, notes := "moved",
              reserved := false }] ∧
    (∀ r ∈ c7_db'.reprint_revisions,
      link_field r ReprintType.story_to_story ≠ some 7) := by
  have hthm := C7_reprint_shape_transition c7_db c7_db' 1 true c7_rev
    ReprintType.story_to_story 20 30 7 rfl rfl rfl rfl rfl rfl rfl rfl rfl rfl
  have hne : ReprintType.story_to_story ≠ computed_out_type c7_rev := by
    decide
  obtain ⟨h1, h2, h3, h4⟩ := hthm.1 hne
  exact ⟨hne, rfl, h3, h2⟩
